import Mathlib

/-!
# MultiplayerSessions: session lifecycle manager

A shallow embedding of `UMultiplayerSessionsSubsystem`
(`Private/MultiplayerSessionsSubsystem.cpp`) and of the one UI handler that
prepares descriptors for it (`UMenuWidget::OnFindSessions`).

Modelling conventions.

* The online session interface (the provider) is engine code.  Every
  submission returns a boolean synchronously and completes later through a
  registered delegate; the synchronous answers, the existence of the named
  session, the subsystem name and the random number are fields of
  `ProviderAnswers`, which the environment may change between calls.
* A completion delegate list is a multiset of registrations per operation;
  `Add..Delegate_Handle` adds one and makes the handle slot valid,
  `Clear..Delegate_Handle` removes one when the slot is valid and resets it.
* Every call on the provider and every `Broadcast` of a `MultiplayerOn..`
  delegate is appended to `State.log`, in program order.  Observers are
  external: what they do in reaction to a broadcast is a later call.
* The friends directory `TMap<FString, ..>` is an association list in
  insertion order; `FString` keys are compared ignoring case, and
  `FString::ToLower` is `String.toLower`.  Identities are opaque numbers.
* The local player identity and the on-screen debug messages are not
  modelled.
-/

namespace MultiplayerSessions

/-! ## Data model -/

/-- The provider delegate lists the subsystem registers with. -/
inductive Op where
  | create
  | find
  | join
  | destroy
  | start
  | inviteAccepted
  deriving DecidableEq, Repr

/-- Result codes of the engine enumeration `EOnJoinSessionCompleteResult::Type`. -/
inductive EOnJoinSessionCompleteResult where
  | Success
  | SessionIsFull
  | SessionDoesNotExist
  | CouldNotRetrieveAddress
  | AlreadyInSession
  | UnknownError
  deriving DecidableEq, Repr

/-- The fields of the engine type `FOnlineSessionSettings` the code reads or writes.
`MatchType` is the entry of the settings map under the key `MatchType`
(`none` when `Get` returns false). -/
structure FOnlineSessionSettings where
  bIsLANMatch : Bool
  NumPublicConnections : Int
  bAllowJoinInProgress : Bool
  bAllowJoinViaPresence : Bool
  bUseLobbiesIfAvailable : Bool
  bShouldAdvertise : Bool
  bUsesPresence : Bool
  MatchType : Option String
  BuildUniqueId : Int
  deriving DecidableEq, Repr

/-- A session descriptor (the engine type `FOnlineSessionSearchResult`): an
opaque handle, the answer of `IsValid()`, and the advertised settings of its
session. -/
structure FOnlineSessionSearchResult where
  handle : Nat
  bIsValid : Bool
  SessionSettings : FOnlineSessionSettings
  deriving DecidableEq, Repr

/-- The fields of the engine type `FOnlineSessionSearch` the code reads or writes; the two
query settings are the entries under `LOBBYSEARCH` and `MatchType`. -/
structure FOnlineSessionSearch where
  MaxSearchResults : Int
  bIsLanQuery : Bool
  QueryLobbySearch : Bool
  QueryMatchType : String
  SearchResults : List FOnlineSessionSearchResult
  deriving DecidableEq, Repr

/-- An entry of the friends list: display name and identity handle. -/
structure FOnlineFriend where
  DisplayName : String
  UserId : Nat
  deriving DecidableEq, Repr

/-- What the provider answers, outside the control of the subsystem. -/
structure ProviderAnswers where
  namedSession : Bool
  isNullSubsystem : Bool
  createAccepted : Bool
  findAccepted : Bool
  joinAccepted : Bool
  startAccepted : Bool
  destroyAccepted : Bool
  rand : Int
  deriving DecidableEq, Repr

/-- Everything observable: calls on the provider and broadcasts to observers. -/
inductive Action where
  | addDelegate (op : Op)
  | clearDelegate (op : Op)
  | providerCreateSession (settings : FOnlineSessionSettings)
  | providerFindSessions (search : FOnlineSessionSearch)
  | providerJoinSession (r : FOnlineSessionSearchResult)
  | providerStartSession
  | providerDestroySession
  | providerSendSessionInviteToFriend (id : Nat)
  | providerReadFriendsList
  | broadcastCreate (b : Bool)
  | broadcastFind (rs : List FOnlineSessionSearchResult) (b : Bool)
  | broadcastJoin (r : EOnJoinSessionCompleteResult)
  | broadcastDestroy (b : Bool)
  | broadcastStart (b : Bool)
  deriving DecidableEq, Repr

/-- The subsystem together with the provider it talks to. -/
structure State where
  /-- The answer of `SessionInterface.IsValid()`. -/
  SessionInterfaceValid : Bool
  /-- The answer of `FriendsInterface.IsValid()`. -/
  FriendsInterfaceValid : Bool
  answers : ProviderAnswers
  /-- The registrations the provider holds, one entry per registration. -/
  delegates : List Op
  LastSessionSettings : Option FOnlineSessionSettings
  LastSessionSearch : Option FOnlineSessionSearch
  /-- Handle slots: `true` when the slot holds a valid handle. -/
  CreateSessionCompleteDelegateHandle : Bool
  FindSessionsCompleteDelegateHandle : Bool
  JoinSessionCompleteDelegateHandle : Bool
  DestroySessionCompleteDelegateHandle : Bool
  StartSessionCompleteDelegateHandle : Bool
  InviteAcceptedCompleteDelegateHandle : Bool
  bCreateSessionOnDestroy : Bool
  LastNumPublicConnections : Int
  LastMatchType : String
  FriendNameToIdMap : List (String × Nat)
  log : List Action
  deriving DecidableEq, Repr

/-- The subsystem right after construction: nothing registered, nothing
remembered; `LastNumPublicConnections` has no initialiser in the source. -/
def State.init (sessionValid friendsValid : Bool) (a : ProviderAnswers)
    (lastNum : Int) : State :=
  { SessionInterfaceValid := sessionValid
    FriendsInterfaceValid := friendsValid
    answers := a
    delegates := []
    LastSessionSettings := none
    LastSessionSearch := none
    CreateSessionCompleteDelegateHandle := false
    FindSessionsCompleteDelegateHandle := false
    JoinSessionCompleteDelegateHandle := false
    DestroySessionCompleteDelegateHandle := false
    StartSessionCompleteDelegateHandle := false
    InviteAcceptedCompleteDelegateHandle := false
    bCreateSessionOnDestroy := false
    LastNumPublicConnections := lastNum
    LastMatchType := ""
    FriendNameToIdMap := []
    log := [] }

/-! ## Provider primitives -/

/-- Append one observable action. -/
def emit (a : Action) (s : State) : State :=
  { s with log := s.log ++ [a] }

/-- Whether the handle slot of an operation holds a valid handle. -/
def handleOf (op : Op) (s : State) : Bool :=
  match op with
  | .create => s.CreateSessionCompleteDelegateHandle
  | .find => s.FindSessionsCompleteDelegateHandle
  | .join => s.JoinSessionCompleteDelegateHandle
  | .destroy => s.DestroySessionCompleteDelegateHandle
  | .start => s.StartSessionCompleteDelegateHandle
  | .inviteAccepted => s.InviteAcceptedCompleteDelegateHandle

/-- Overwrite the handle slot of an operation. -/
def setHandle (op : Op) (h : Bool) (s : State) : State :=
  match op with
  | .create => { s with CreateSessionCompleteDelegateHandle := h }
  | .find => { s with FindSessionsCompleteDelegateHandle := h }
  | .join => { s with JoinSessionCompleteDelegateHandle := h }
  | .destroy => { s with DestroySessionCompleteDelegateHandle := h }
  | .start => { s with StartSessionCompleteDelegateHandle := h }
  | .inviteAccepted => { s with InviteAcceptedCompleteDelegateHandle := h }

/-- The statement `Handle = SessionInterface->AddOn..Delegate_Handle(Delegate)`. -/
def addDelegate (op : Op) (s : State) : State :=
  emit (.addDelegate op) (setHandle op true { s with delegates := s.delegates ++ [op] })

/-- The statement `SessionInterface->ClearOn..Delegate_Handle(Handle)`. -/
def clearDelegate (op : Op) (s : State) : State :=
  if handleOf op s then
    emit (.clearDelegate op) (setHandle op false { s with delegates := s.delegates.erase op })
  else
    emit (.clearDelegate op) s

/-- The actions appended to the log between two states. -/
def emitted (s s' : State) : List Action :=
  s'.log.drop s.log.length

/-! ## Operations of the subsystem -/

/-- The source function `UMultiplayerSessionsSubsystem::DestroySession`. -/
def DestroySession (s : State) : State :=
  if !s.SessionInterfaceValid then
    emit (.broadcastDestroy false) s
  else
    let s1 := addDelegate .destroy s
    let s2 := emit .providerDestroySession s1
    if !s2.answers.destroyAccepted then
      emit (.broadcastDestroy false) (clearDelegate .destroy s2)
    else
      s2

/-- The settings object `CreateSession` builds before submitting. -/
def createSettings (a : ProviderAnswers) (NumPublicConnections : Int)
    (MatchType : String) : FOnlineSessionSettings :=
  { bIsLANMatch := a.isNullSubsystem
    NumPublicConnections := NumPublicConnections
    bAllowJoinInProgress := true
    bAllowJoinViaPresence := true
    bUseLobbiesIfAvailable := true
    bShouldAdvertise := true
    bUsesPresence := true
    MatchType := some MatchType
    BuildUniqueId := a.rand }

/-- The source function `UMultiplayerSessionsSubsystem::CreateSession`.  The
branch for an existing session has no `return`: control continues with the
registration and the submission below it. -/
def CreateSession (NumPublicConnections : Int) (MatchType : String) (s : State) : State :=
  if !s.SessionInterfaceValid then
    s
  else
    let s1 :=
      if s.answers.namedSession then
        DestroySession { s with
          bCreateSessionOnDestroy := true
          LastNumPublicConnections := NumPublicConnections
          LastMatchType := MatchType }
      else
        s
    let s2 := addDelegate .create s1
    let settings := createSettings s2.answers NumPublicConnections MatchType
    let s3 := { s2 with LastSessionSettings := some settings }
    let s4 := emit (.providerCreateSession settings) s3
    if !s4.answers.createAccepted then
      emit (.broadcastCreate false) (clearDelegate .create s4)
    else
      s4

/-- The search object `FindSessions` builds before submitting. -/
def findQuery (s : State) (MaxSearchResults : Int) : FOnlineSessionSearch :=
  { MaxSearchResults := MaxSearchResults
    bIsLanQuery := s.answers.isNullSubsystem
    QueryLobbySearch := true
    QueryMatchType := s.LastMatchType
    SearchResults := [] }

/-- The source function `UMultiplayerSessionsSubsystem::FindSessions`. -/
def FindSessions (MaxSearchResults : Int) (s : State) : State :=
  if !s.SessionInterfaceValid then
    emit (.broadcastFind [] false) s
  else
    let s1 := addDelegate .find s
    let search := findQuery s1 MaxSearchResults
    let s2 := { s1 with LastSessionSearch := some search }
    let s3 := emit (.providerFindSessions search) s2
    if !s3.answers.findAccepted then
      emit (.broadcastFind [] false) (clearDelegate .find s3)
    else
      s3

/-- The source function `UMultiplayerSessionsSubsystem::JoinSession`. -/
def JoinSession (SessionResult : FOnlineSessionSearchResult) (s : State) : State :=
  if !s.SessionInterfaceValid then
    emit (.broadcastJoin .UnknownError) s
  else
    let s1 := addDelegate .join s
    let s2 := emit (.providerJoinSession SessionResult) s1
    if !s2.answers.joinAccepted then
      emit (.broadcastJoin .UnknownError) (clearDelegate .join s2)
    else
      s2

/-- The source function `UMultiplayerSessionsSubsystem::StartSession`. -/
def StartSession (s : State) : State :=
  if !s.SessionInterfaceValid then
    emit (.broadcastStart false) s
  else
    let s1 := addDelegate .start s
    let s2 := emit .providerStartSession s1
    if !s2.answers.startAccepted then
      emit (.broadcastStart false) (clearDelegate .start s2)
    else
      s2

/-- The two assignments that force lobby preference and presence usage. -/
def forceLobbyFlags (r : FOnlineSessionSearchResult) : FOnlineSessionSearchResult :=
  { r with SessionSettings :=
      { r.SessionSettings with bUseLobbiesIfAvailable := true, bUsesPresence := true } }

/-- The source function `UMultiplayerSessionsSubsystem::InviteAccept`. -/
def InviteAccept (InviteResult : FOnlineSessionSearchResult) (s : State) : State :=
  if InviteResult.bIsValid then
    let CachedInviteResult :=
      match InviteResult.SessionSettings.MatchType with
      | some _ => forceLobbyFlags InviteResult
      | none => InviteResult
    JoinSession CachedInviteResult s
  else
    s

/-! ## Completion handlers -/

/-- The source function `OnCreateSessionComplete`. -/
def OnCreateSessionComplete (bWasSuccessful : Bool) (s : State) : State :=
  let s1 := if s.SessionInterfaceValid then clearDelegate .create s else s
  emit (.broadcastCreate bWasSuccessful) s1

/-- The source function `OnFindSessionsComplete`; `none` when
`LastSessionSearch` is null, which the source dereferences unchecked. -/
def OnFindSessionsComplete (bWasSuccessful : Bool) (s : State) : Option State :=
  let s1 := if s.SessionInterfaceValid then clearDelegate .find s else s
  match s1.LastSessionSearch with
  | none => none
  | some search =>
    if search.SearchResults.length ≤ 0 then
      some (emit (.broadcastFind [] false) s1)
    else
      some (emit (.broadcastFind search.SearchResults bWasSuccessful) s1)

/-- The source function `OnJoinSessionComplete`. -/
def OnJoinSessionComplete (Result : EOnJoinSessionCompleteResult) (s : State) : State :=
  let s1 := if s.SessionInterfaceValid then clearDelegate .join s else s
  emit (.broadcastJoin Result) s1

/-- The source function `OnDestroySessionComplete`. -/
def OnDestroySessionComplete (bWasSuccessful : Bool) (s : State) : State :=
  let s1 := if s.SessionInterfaceValid then clearDelegate .destroy s else s
  let s2 :=
    if bWasSuccessful && s1.bCreateSessionOnDestroy then
      CreateSession s1.LastNumPublicConnections s1.LastMatchType
        { s1 with bCreateSessionOnDestroy := false }
    else
      s1
  emit (.broadcastDestroy bWasSuccessful) s2

/-- The source function `OnStartSessionComplete`. -/
def OnStartSessionComplete (bWasSuccessful : Bool) (s : State) : State :=
  let s1 := if s.SessionInterfaceValid then clearDelegate .start s else s
  emit (.broadcastStart bWasSuccessful) s1

/-- The source function `OnInviteAcceptedComplete`. -/
def OnInviteAcceptedComplete (bWasSuccessful : Bool)
    (InviteResult : FOnlineSessionSearchResult) (s : State) : State :=
  if !bWasSuccessful || !InviteResult.bIsValid then
    s
  else
    let s1 := InviteAccept InviteResult s
    if s1.SessionInterfaceValid then clearDelegate .inviteAccepted s1 else s1

/-! ## Initialisation, friends directory and invites -/

/-- The source function `UMultiplayerSessionsSubsystem::Initialize`. -/
def Initialize (s : State) : State :=
  let s1 := if s.SessionInterfaceValid then addDelegate .inviteAccepted s else s
  if s1.FriendsInterfaceValid then emit .providerReadFriendsList s1 else s1

/-- The source function `UMultiplayerSessionsSubsystem::Deinitialize`. -/
def Deinitialize (s : State) : State :=
  if s.SessionInterfaceValid then clearDelegate .inviteAccepted s else s

/-- The comparison `FString::operator==`, which ignores case. -/
def FStringEq (a b : String) : Bool :=
  a.toLower == b.toLower

/-- The map operation `TMap::Add` on string keys, which are compared with
`FString::operator==`: replace the pair of a present key, else append a new
pair. -/
def TMapAdd (k : String) (v : Nat) : List (String × Nat) → List (String × Nat)
  | [] => [(k, v)]
  | (k', v') :: rest =>
    if FStringEq k' k then (k, v) :: rest else (k', v') :: TMapAdd k v rest

/-- The map operation `TMap::Find` on string keys. -/
def TMapFind (k : String) : List (String × Nat) → Option Nat
  | [] => none
  | (k', v') :: rest => if FStringEq k' k then some v' else TMapFind k rest

/-- The source function `OnReadFriendsListComplete`; `Friends` is what
`GetFriendsList` hands back, `none` when it returns false. -/
def OnReadFriendsListComplete (bWasSuccessful : Bool)
    (Friends : Option (List FOnlineFriend)) (s : State) : State :=
  if !bWasSuccessful || !s.FriendsInterfaceValid then
    s
  else
    match Friends with
    | none => s
    | some fs =>
      { s with FriendNameToIdMap :=
          fs.foldl (fun m f => TMapAdd f.DisplayName.toLower f.UserId m) s.FriendNameToIdMap }

/-- The source function `InviteFriendByNickname`. -/
def InviteFriendByNickname (FriendNickname : String) (s : State) : State :=
  if !s.SessionInterfaceValid then
    s
  else
    match TMapFind FriendNickname.toLower s.FriendNameToIdMap with
    | none => s
    | some id => emit (.providerSendSessionInviteToFriend id) s

/-! ## The menu handler that feeds `JoinSession` -/

/-- The fields of `UMenuWidget` its session handlers read or write. -/
structure MenuWidget where
  NumPublicConnections : Int
  MatchType : String
  HostButtonEnabled : Bool
  JoinButtonEnabled : Bool
  deriving DecidableEq, Repr

/-- The loop of `UMenuWidget::OnFindSessions`: `some` when a result was
joined (the handler returns there), `none` when the loop ran to its end. -/
def OnFindSessionsLoop (MatchType : String) :
    List FOnlineSessionSearchResult → State → Option State
  | [], _ => none
  | Result :: rest, s =>
    match Result.SessionSettings.MatchType with
    | some SettingsMatchType =>
      if FStringEq SettingsMatchType MatchType then
        some (JoinSession (forceLobbyFlags Result) s)
      else
        OnFindSessionsLoop MatchType rest s
    | none => OnFindSessionsLoop MatchType rest s

/-- The source function `UMenuWidget::OnFindSessions`. -/
def MenuWidget.OnFindSessions (w : MenuWidget)
    (SessionResults : List FOnlineSessionSearchResult) (bWasSuccessful : Bool)
    (s : State) : MenuWidget × State :=
  match OnFindSessionsLoop w.MatchType SessionResults s with
  | some s' => (w, s')
  | none =>
    if !bWasSuccessful || SessionResults.length = 0 then
      ({ w with JoinButtonEnabled := true }, s)
    else
      (w, s)

/-! ## Call sequences -/

/-- One thing that can happen to the subsystem: a call of a public
operation, a completion delivered by the provider, or a change of what the
provider answers. -/
inductive Event where
  | CreateSession (NumPublicConnections : Int) (MatchType : String)
  | FindSessions (MaxSearchResults : Int)
  | JoinSession (r : FOnlineSessionSearchResult)
  | StartSession
  | DestroySession
  | InviteAccept (r : FOnlineSessionSearchResult)
  | InviteFriendByNickname (nick : String)
  | OnCreateSessionComplete (b : Bool)
  | OnFindSessionsComplete (results : List FOnlineSessionSearchResult) (b : Bool)
  | OnJoinSessionComplete (r : EOnJoinSessionCompleteResult)
  | OnDestroySessionComplete (b : Bool)
  | OnStartSessionComplete (b : Bool)
  | OnInviteAcceptedComplete (b : Bool) (r : FOnlineSessionSearchResult)
  | OnReadFriendsListComplete (b : Bool) (friends : Option (List FOnlineFriend))
  | providerAnswers (a : ProviderAnswers)
  deriving DecidableEq, Repr

/-- The provider writes the results of a search into the shared search
object before it calls the find delegate. -/
def fillSearchResults (results : List FOnlineSessionSearchResult) (s : State) : State :=
  { s with LastSessionSearch :=
      s.LastSessionSearch.map (fun q => { q with SearchResults := results }) }

/-- Run one event; `none` only for the null dereference of
`OnFindSessionsComplete`. -/
def step (e : Event) (s : State) : Option State :=
  match e with
  | .CreateSession n m => some (CreateSession n m s)
  | .FindSessions k => some (FindSessions k s)
  | .JoinSession r => some (JoinSession r s)
  | .StartSession => some (StartSession s)
  | .DestroySession => some (DestroySession s)
  | .InviteAccept r => some (InviteAccept r s)
  | .InviteFriendByNickname nick => some (InviteFriendByNickname nick s)
  | .OnCreateSessionComplete b => some (OnCreateSessionComplete b s)
  | .OnFindSessionsComplete results b =>
    OnFindSessionsComplete b (fillSearchResults results s)
  | .OnJoinSessionComplete r => some (OnJoinSessionComplete r s)
  | .OnDestroySessionComplete b => some (OnDestroySessionComplete b s)
  | .OnStartSessionComplete b => some (OnStartSessionComplete b s)
  | .OnInviteAcceptedComplete b r => some (OnInviteAcceptedComplete b r s)
  | .OnReadFriendsListComplete b friends => some (OnReadFriendsListComplete b friends s)
  | .providerAnswers a => some { s with answers := a }

/-- Run a sequence of events from left to right. -/
def run : List Event → State → Option State
  | [], s => some s
  | e :: es, s =>
    match step e s with
    | none => none
    | some s' => run es s'

/-- The broadcasts of `MultiplayerOnCreateSessionComplete` in a log. -/
def createBroadcasts (l : List Action) : List Bool :=
  l.filterMap fun a =>
    match a with
    | .broadcastCreate b => some b
    | _ => none

/-- The broadcasts of `MultiplayerOnDestroySessionComplete` in a log. -/
def destroyBroadcasts (l : List Action) : List Bool :=
  l.filterMap fun a =>
    match a with
    | .broadcastDestroy b => some b
    | _ => none

/-- The settings of the create requests submitted to the provider in a log. -/
def createSubmissions (l : List Action) : List FOnlineSessionSettings :=
  l.filterMap fun a =>
    match a with
    | .providerCreateSession st => some st
    | _ => none

/-- The search objects submitted to the provider in a log. -/
def findSubmissions (l : List Action) : List FOnlineSessionSearch :=
  l.filterMap fun a =>
    match a with
    | .providerFindSessions q => some q
    | _ => none

/-- The descriptors submitted to the provider for joining in a log. -/
def joinSubmissions (l : List Action) : List FOnlineSessionSearchResult :=
  l.filterMap fun a =>
    match a with
    | .providerJoinSession r => some r
    | _ => none

/-- Whether an action is a broadcast to observers. -/
def Action.isBroadcast : Action → Bool
  | .broadcastCreate _ => true
  | .broadcastFind _ _ => true
  | .broadcastJoin _ => true
  | .broadcastDestroy _ => true
  | .broadcastStart _ => true
  | _ => false

/-- The broadcasts to observers in a log, in order. -/
def broadcasts (l : List Action) : List Action :=
  l.filter Action.isBroadcast

/-! ## Traces of single calls -/

/-- The actions of one `DestroySession` call with an available provider. -/
def destroySessionActions (a : ProviderAnswers) : List Action :=
  [.addDelegate .destroy, .providerDestroySession] ++
    (if a.destroyAccepted then [] else [.clearDelegate .destroy, .broadcastDestroy false])

/-- The actions of one `CreateSession` call with an available provider. -/
def createSessionActions (a : ProviderAnswers) (n : Int) (m : String) : List Action :=
  (if a.namedSession then destroySessionActions a else []) ++
    [.addDelegate .create, .providerCreateSession (createSettings a n m)] ++
    (if a.createAccepted then [] else [.clearDelegate .create, .broadcastCreate false])

/-! ## Concrete scenarios -/

/-- A provider that holds a session under the well-known name, refuses a
create while that session exists, and accepts everything else. -/
def answersWithSession : ProviderAnswers :=
  { namedSession := true
    isNullSubsystem := false
    createAccepted := false
    findAccepted := true
    joinAccepted := true
    startAccepted := true
    destroyAccepted := true
    rand := 7 }

/-- A provider without a session that accepts every submission. -/
def answersNoSession : ProviderAnswers :=
  { namedSession := false
    isNullSubsystem := false
    createAccepted := true
    findAccepted := true
    joinAccepted := true
    startAccepted := true
    destroyAccepted := true
    rand := 7 }

/-- A provider without a session that refuses every submission. -/
def answersRejecting : ProviderAnswers :=
  { namedSession := false
    isNullSubsystem := false
    createAccepted := false
    findAccepted := false
    joinAccepted := false
    startAccepted := false
    destroyAccepted := false
    rand := 7 }

/-- A freshly constructed subsystem whose provider already holds a session. -/
def hostWithSession : State := State.init true true answersWithSession 0

/-- A freshly constructed subsystem whose provider holds no session. -/
def freshClient : State := State.init true true answersNoSession 0

/-- A freshly constructed subsystem whose provider refuses every submission. -/
def refusedClient : State := State.init true true answersRejecting 0

/-- A freshly constructed subsystem without a session interface. -/
def offlineClient : State := State.init false false answersNoSession 0

/-- A well-formed descriptor that advertises a match type and has both
lobby flags off. -/
def plainDescriptor : FOnlineSessionSearchResult :=
  { handle := 1
    bIsValid := true
    SessionSettings :=
      { bIsLANMatch := false
        NumPublicConnections := 4
        bAllowJoinInProgress := true
        bAllowJoinViaPresence := true
        bUseLobbiesIfAvailable := false
        bShouldAdvertise := true
        bUsesPresence := false
        MatchType := some "TDM"
        BuildUniqueId := 7 } }

/-- A subsystem with a pending recreate of `(4, "TDM")` whose provider holds
no session any more. -/
def pendingRecreateClient : State :=
  { freshClient with
    bCreateSessionOnDestroy := true
    LastNumPublicConnections := 4
    LastMatchType := "TDM" }

/-- A search object that came back with one result. -/
def searchWithOneResult : FOnlineSessionSearch :=
  { findQuery freshClient 10 with SearchResults := [plainDescriptor] }

/-- A subsystem whose last search came back with one result. -/
def searchedClient : State :=
  { freshClient with LastSessionSearch := some searchWithOneResult }

/-- The claim as worded: the match type argument of the most recent
`CreateSession` call in a sequence of events, if there is one. -/
def lastCreateSessionMatchType : List Event → Option String
  | [] => none
  | e :: es =>
    match lastCreateSessionMatchType es with
    | some m => some m
    | none =>
      match e with
      | .CreateSession _ m => some m
      | _ => none

/-- What the code keeps in `LastMatchType` after a sequence of events, given
whether the provider is available, whether a session currently exists and
what was kept before.  Only a `CreateSession` call made with an available
provider while a session exists replaces it; the provider decides whether a
session exists. -/
def rememberedMatchType (valid : Bool) : List Event → Bool → String → String
  | [], _, last => last
  | .CreateSession _ m :: es, named, last =>
    rememberedMatchType valid es named (if valid && named then m else last)
  | .providerAnswers a :: es, _, last => rememberedMatchType valid es a.namedSession last
  | _ :: es, named, last => rememberedMatchType valid es named last

/-- A host that recreates its session as `(4, "TDM")` and, once that session
is gone, asks for `(2, "FFA")` with no session in the way. -/
def recreateThenCreate : List Event :=
  [.CreateSession 4 "TDM", .providerAnswers answersNoSession,
   .OnDestroySessionComplete true, .OnCreateSessionComplete true,
   .CreateSession 2 "FFA"]

/-- A menu that looks for `"TDM"` matches. -/
def tdmMenu : MenuWidget :=
  { NumPublicConnections := 4
    MatchType := "TDM"
    HostButtonEnabled := true
    JoinButtonEnabled := false }

/-- The descriptor `InviteAccept` hands to `JoinSession`: the flags are
forced when the match type attribute is present. -/
def inviteNormalized (d : FOnlineSessionSearchResult) : FOnlineSessionSearchResult :=
  match d.SessionSettings.MatchType with
  | some _ => forceLobbyFlags d
  | none => d

/-- A descriptor for which `IsValid()` answers false. -/
def brokenDescriptor : FOnlineSessionSearchResult :=
  { plainDescriptor with bIsValid := false }

/-- The rebuild loop of `OnReadFriendsListComplete` on its own. -/
def addFriends (fs : List FOnlineFriend) (m : List (String × Nat)) : List (String × Nat) :=
  fs.foldl (fun m f => TMapAdd f.DisplayName.toLower f.UserId m) m

/-- The amended claim as worded: the identity a friend list gives to a key,
namely that of the last entry whose lowercased nickname is the key. -/
def lastFriendFor (k : String) : List FOnlineFriend → Option Nat
  | [] => none
  | f :: fs =>
    match lastFriendFor k fs with
    | some id => some id
    | none => if FStringEq f.DisplayName.toLower k then some f.UserId else none

/-- A subsystem whose directory holds the one entry `bob`. -/
def clientKnowingBob : State :=
  { freshClient with FriendNameToIdMap := [("bob", 2)] }

/-- A friends list with the one entry `Alice`. -/
def aliceOnly : List FOnlineFriend :=
  [{ DisplayName := "Alice", UserId := 1 }]

/-- A subsystem whose directory was built by one successful read of the
list with the one entry `Alice`. -/
def clientKnowingAlice : State :=
  OnReadFriendsListComplete true (some aliceOnly) freshClient

/-- A subsystem right after an accepted `JoinSession` of `plainDescriptor`. -/
def joiningClient : State := JoinSession plainDescriptor freshClient

/-! # Theorems -/

/-! ## Basic facts about the log -/

theorem emitted_of_log_eq {s s' : State} {l : List Action}
    (h : s'.log = s.log ++ l) : emitted s s' = l := by
  simp [emitted, h]

theorem count_append_erase (op x : Op) (l : List Op) :
    ((l ++ [op]).erase op).count x = l.count x := by
  by_cases hx : x = op
  · subst hx
    rw [List.count_erase_self]
    simp
  · rw [List.count_erase_of_ne hx]
    simp [List.count_append, List.count_cons, hx]

theorem DestroySession_log (s : State) (hv : s.SessionInterfaceValid = true) :
    (DestroySession s).log = s.log ++ destroySessionActions s.answers := by
  cases hd : s.answers.destroyAccepted <;>
    simp [DestroySession, destroySessionActions, hv, hd, addDelegate, clearDelegate, emit,
      setHandle, handleOf]

theorem CreateSession_log (n : Int) (m : String) (s : State)
    (hv : s.SessionInterfaceValid = true) :
    (CreateSession n m s).log = s.log ++ createSessionActions s.answers n m := by
  cases hn : s.answers.namedSession <;> cases hd : s.answers.destroyAccepted <;>
    cases hc : s.answers.createAccepted <;>
    simp [CreateSession, DestroySession, createSessionActions, destroySessionActions, hv, hn,
      hd, hc, addDelegate, clearDelegate, emit, setHandle, handleOf]

theorem clearDelegate_log (op : Op) (s : State) :
    (clearDelegate op s).log = s.log ++ [.clearDelegate op] := by
  unfold clearDelegate
  split <;> cases op <;> simp [emit, setHandle]

theorem clearDelegate_fields (op : Op) (s : State) :
    (clearDelegate op s).SessionInterfaceValid = s.SessionInterfaceValid
    ∧ (clearDelegate op s).answers = s.answers
    ∧ (clearDelegate op s).bCreateSessionOnDestroy = s.bCreateSessionOnDestroy
    ∧ (clearDelegate op s).LastNumPublicConnections = s.LastNumPublicConnections
    ∧ (clearDelegate op s).LastMatchType = s.LastMatchType
    ∧ (clearDelegate op s).LastSessionSearch = s.LastSessionSearch := by
  unfold clearDelegate
  split <;> cases op <;> simp [emit, setHandle]

theorem emitted_trans {s t u : State} {l₁ l₂ : List Action}
    (h₁ : t.log = s.log ++ l₁) (h₂ : u.log = t.log ++ l₂) :
    emitted s u = emitted s t ++ emitted t u := by
  rw [emitted_of_log_eq h₁, emitted_of_log_eq h₂]
  exact emitted_of_log_eq (by rw [h₂, h₁, List.append_assoc])

theorem CreateSession_flag_of_no_session (n : Int) (m : String) (s : State)
    (hn : s.answers.namedSession = false) :
    (CreateSession n m s).bCreateSessionOnDestroy = s.bCreateSessionOnDestroy := by
  cases hv : s.SessionInterfaceValid <;> cases hc : s.answers.createAccepted <;>
    simp [CreateSession, hv, hn, hc, emit, addDelegate, clearDelegate, setHandle, handleOf]

/-! ## CreateSession -/

/-- Whenever the provider is available and a session exists, `CreateSession`
submits a create request in the same call, after the destroy request. -/
theorem createSession_existing_submits (n : Int) (m : String) (s : State)
    (hv : s.SessionInterfaceValid = true) (hn : s.answers.namedSession = true) :
    createSubmissions (emitted s (CreateSession n m s)) = [createSettings s.answers n m] := by
  rw [emitted_of_log_eq (CreateSession_log n m s hv)]
  cases hd : s.answers.destroyAccepted <;> cases hc : s.answers.createAccepted <;>
    simp [createSubmissions, createSessionActions, destroySessionActions, hn, hd, hc]

/-- Without a session interface `CreateSession` changes nothing and notifies
nobody. -/
theorem createSession_without_provider (n : Int) (m : String) (s : State)
    (hv : s.SessionInterfaceValid = false) : CreateSession n m s = s := by
  simp [CreateSession, hv]

/-- C1, the code at the failing input: with an existing session and a
provider that refuses a second session, `CreateSession(4, "TDM")` records the
pending recreate and issues the destroy, but then goes on to register the
create delegate, submit the create request and broadcast
`CreateSessionComplete(false)` in the same call. -/
theorem createSession_existing_session_falls_through :
    (CreateSession 4 "TDM" hostWithSession).log =
      [.addDelegate .destroy, .providerDestroySession, .addDelegate .create,
       .providerCreateSession (createSettings answersWithSession 4 "TDM"),
       .clearDelegate .create, .broadcastCreate false]
    ∧ (CreateSession 4 "TDM" hostWithSession).bCreateSessionOnDestroy = true
    ∧ (CreateSession 4 "TDM" hostWithSession).LastNumPublicConnections = 4
    ∧ (CreateSession 4 "TDM" hostWithSession).LastMatchType = "TDM"
    ∧ createSubmissions (CreateSession 4 "TDM" hostWithSession).log
        = [createSettings answersWithSession 4 "TDM"]
    ∧ createBroadcasts (CreateSession 4 "TDM" hostWithSession).log = [false] := by
  refine ⟨by rfl, by rfl, by rfl, by rfl, by rfl, by rfl⟩

/-- C2, the code at the failing input: without a session interface
`CreateSession` returns silently (no broadcast at all), while `FindSessions`,
`JoinSession`, `StartSession` and `DestroySession` each broadcast their
failure payload exactly once and register nothing. -/
theorem createSession_without_provider_is_silent :
    CreateSession 4 "TDM" offlineClient = offlineClient
    ∧ (CreateSession 4 "TDM" offlineClient).log = []
    ∧ (FindSessions 10 offlineClient).log = [.broadcastFind [] false]
    ∧ (JoinSession plainDescriptor offlineClient).log = [.broadcastJoin .UnknownError]
    ∧ (StartSession offlineClient).log = [.broadcastStart false]
    ∧ (DestroySession offlineClient).log = [.broadcastDestroy false]
    ∧ (FindSessions 10 offlineClient).delegates = []
    ∧ (JoinSession plainDescriptor offlineClient).delegates = []
    ∧ (StartSession offlineClient).delegates = []
    ∧ (DestroySession offlineClient).delegates = [] := by
  refine ⟨by rfl, by rfl, by rfl, by rfl, by rfl, by rfl, by rfl, by rfl, by rfl, by rfl⟩

/-- The four operations other than `CreateSession` broadcast their failure
payload exactly once and touch nothing else when the session interface is
missing. -/
theorem siblings_without_provider (k : Int) (r : FOnlineSessionSearchResult) (s : State)
    (hv : s.SessionInterfaceValid = false) :
    FindSessions k s = emit (.broadcastFind [] false) s
    ∧ JoinSession r s = emit (.broadcastJoin .UnknownError) s
    ∧ StartSession s = emit (.broadcastStart false) s
    ∧ DestroySession s = emit (.broadcastDestroy false) s := by
  simp [FindSessions, JoinSession, StartSession, DestroySession, hv]

/-- The handler `OnCreateSessionComplete` broadcasts the flag of the provider
exactly once, after clearing the create delegate. -/
theorem onCreateSessionComplete_emitted (b : Bool) (t : State) :
    emitted t (OnCreateSessionComplete b t) =
      (if t.SessionInterfaceValid then [.clearDelegate .create] else [])
        ++ [.broadcastCreate b] := by
  apply emitted_of_log_eq
  cases hv : t.SessionInterfaceValid <;>
    simp [OnCreateSessionComplete, hv, emit, clearDelegate_log]

/-- C3: with an available provider and no existing session, a refused
submission makes `CreateSession` clear the create delegate it registered and
broadcast `CreateSessionComplete(false)` exactly once within the call; an
accepted submission broadcasts nothing within the call, and the completion of
the provider with flag `b` then broadcasts `CreateSessionComplete(b)` exactly
once (in whatever state the completion arrives). -/
theorem createSession_without_existing_session (n : Int) (m : String) (s : State)
    (hv : s.SessionInterfaceValid = true) (hn : s.answers.namedSession = false) :
    (s.answers.createAccepted = false →
        emitted s (CreateSession n m s) =
          [.addDelegate .create, .providerCreateSession (createSettings s.answers n m),
           .clearDelegate .create, .broadcastCreate false]
        ∧ broadcasts (emitted s (CreateSession n m s)) = [.broadcastCreate false]
        ∧ (∀ op, (CreateSession n m s).delegates.count op = s.delegates.count op)
        ∧ (CreateSession n m s).CreateSessionCompleteDelegateHandle = false)
    ∧ (s.answers.createAccepted = true →
        emitted s (CreateSession n m s) =
          [.addDelegate .create, .providerCreateSession (createSettings s.answers n m)]
        ∧ broadcasts (emitted s (CreateSession n m s)) = []
        ∧ (CreateSession n m s).delegates = s.delegates ++ [.create]
        ∧ ∀ b, emitted (CreateSession n m s) (OnCreateSessionComplete b (CreateSession n m s))
              = [.clearDelegate .create, .broadcastCreate b]
            ∧ (∀ op, (OnCreateSessionComplete b (CreateSession n m s)).delegates.count op
                = s.delegates.count op))
    ∧ (∀ (b : Bool) (t : State),
        createBroadcasts (emitted t (OnCreateSessionComplete b t)) = [b]) := by
  have hlog := CreateSession_log n m s hv
  refine ⟨fun ha => ?_, fun ha => ?_, fun b t => ?_⟩
  · simp only [createSessionActions, hn, ha, Bool.false_eq_true, if_false, List.nil_append,
      List.cons_append] at hlog
    rw [emitted_of_log_eq hlog]
    refine ⟨rfl, by simp [broadcasts, Action.isBroadcast], ?_, ?_⟩
    · intro op
      simp [CreateSession, hv, hn, ha, addDelegate, clearDelegate, emit, setHandle, handleOf]
      exact count_append_erase _ _ _
    · simp [CreateSession, hv, hn, ha, addDelegate, clearDelegate, emit, setHandle, handleOf]
  · simp only [createSessionActions, hn, ha, Bool.false_eq_true, if_false, if_true,
      List.nil_append, List.cons_append, List.append_nil] at hlog
    rw [emitted_of_log_eq hlog]
    refine ⟨rfl, by simp [broadcasts, Action.isBroadcast], ?_, fun b => ⟨?_, fun op => ?_⟩⟩
    · simp [CreateSession, hv, hn, ha, addDelegate, emit, setHandle]
    · rw [onCreateSessionComplete_emitted]
      simp [CreateSession, hv, hn, ha, addDelegate, emit, setHandle]
    · simp [OnCreateSessionComplete, CreateSession, hv, hn, ha, addDelegate, clearDelegate, emit,
        setHandle, handleOf]
      exact count_append_erase _ _ _
  · rw [onCreateSessionComplete_emitted]
    cases t.SessionInterfaceValid <;> simp [createBroadcasts]

/-- Witness for C3: a fresh subsystem whose provider holds no session. -/
theorem createSession_without_existing_session_witness :
    freshClient.SessionInterfaceValid = true ∧ freshClient.answers.namedSession = false
    ∧ freshClient.answers.createAccepted = true
    ∧ emitted freshClient (CreateSession 4 "TDM" freshClient) =
        [.addDelegate .create, .providerCreateSession (createSettings answersNoSession 4 "TDM")]
    ∧ createBroadcasts (emitted (CreateSession 4 "TDM" freshClient)
        (OnCreateSessionComplete true (CreateSession 4 "TDM" freshClient))) = [true] :=
  ⟨rfl, rfl, rfl,
    ((createSession_without_existing_session 4 "TDM" freshClient rfl rfl).2.1 rfl).1,
    (createSession_without_existing_session 4 "TDM" freshClient rfl rfl).2.2 true _⟩

/-- C4, the code at the failing input: starting with an existing session and
a provider that refuses a create while that session exists,
`CreateSession(4, "TDM")`, then the removal of the session, the destroy
completion with success and the create completion with success, deliver two
`CreateSessionComplete` broadcasts (false, then true), one
`DestroySessionComplete(true)`, and two create submissions. -/
theorem recreate_round_trip_two_create_notifications :
    (run [.CreateSession 4 "TDM", .providerAnswers answersNoSession,
          .OnDestroySessionComplete true, .OnCreateSessionComplete true]
        hostWithSession).map State.log =
      some [.addDelegate .destroy, .providerDestroySession, .addDelegate .create,
       .providerCreateSession (createSettings answersWithSession 4 "TDM"),
       .clearDelegate .create, .broadcastCreate false,
       .clearDelegate .destroy, .addDelegate .create,
       .providerCreateSession (createSettings answersNoSession 4 "TDM"),
       .broadcastDestroy true, .clearDelegate .create, .broadcastCreate true]
    ∧ (run [.CreateSession 4 "TDM", .providerAnswers answersNoSession,
          .OnDestroySessionComplete true, .OnCreateSessionComplete true]
        hostWithSession).map (fun s => createBroadcasts s.log) = some [false, true]
    ∧ (run [.CreateSession 4 "TDM", .providerAnswers answersNoSession,
          .OnDestroySessionComplete true, .OnCreateSessionComplete true]
        hostWithSession).map (fun s => destroyBroadcasts s.log) = some [true] := by
  refine ⟨by rfl, by rfl, by rfl⟩

/-! ## Destroy completion -/

/-- C5: on a destroy completion with success while the pending-recreate flag
is set, the handler is: clear the destroy delegate, clear the flag, run
`CreateSession` with the cached connection count and match type, and only
then broadcast `DestroySessionComplete(true)`; that broadcast happens exactly
once, one create request with the cached parameters is submitted, and when no
session exists any more the flag stays cleared and no other destroy broadcast
happens. -/
theorem onDestroySessionComplete_success_recreates (s : State)
    (hf : s.bCreateSessionOnDestroy = true) :
    let cleared : State :=
      { (if s.SessionInterfaceValid then clearDelegate .destroy s else s) with
        bCreateSessionOnDestroy := false }
    let recreated : State :=
      CreateSession s.LastNumPublicConnections s.LastMatchType cleared
    OnDestroySessionComplete true s = emit (.broadcastDestroy true) recreated
    ∧ emitted s (OnDestroySessionComplete true s)
        = emitted s cleared ++ emitted cleared recreated ++ [.broadcastDestroy true]
    ∧ (destroyBroadcasts (emitted s (OnDestroySessionComplete true s))).count true = 1
    ∧ (s.SessionInterfaceValid = true →
        createSubmissions (emitted cleared recreated)
          = [createSettings s.answers s.LastNumPublicConnections s.LastMatchType])
    ∧ (s.answers.namedSession = false →
        (OnDestroySessionComplete true s).bCreateSessionOnDestroy = false
        ∧ destroyBroadcasts (emitted s (OnDestroySessionComplete true s)) = [true]) := by
  intro cleared recreated
  obtain ⟨cv, ca, cf, cn, cm, -⟩ := clearDelegate_fields .destroy s
  have hdef : OnDestroySessionComplete true s = emit (.broadcastDestroy true) recreated := by
    cases hv : s.SessionInterfaceValid <;>
      simp [OnDestroySessionComplete, recreated, cleared, hv, hf, cf, cn, cm]
  have hrdef : recreated = CreateSession s.LastNumPublicConnections s.LastMatchType cleared := rfl
  have hcv : cleared.SessionInterfaceValid = s.SessionInterfaceValid := by
    cases hv : s.SessionInterfaceValid <;> simp [cleared, hv, cv]
  have hca : cleared.answers = s.answers := by
    cases hv : s.SessionInterfaceValid <;> simp [cleared, hv, ca]
  have hcf : cleared.bCreateSessionOnDestroy = false := rfl
  have hcl : cleared.log = s.log ++
      (if s.SessionInterfaceValid then [.clearDelegate .destroy] else []) := by
    cases hv : s.SessionInterfaceValid <;> simp [cleared, hv, clearDelegate_log]
  clear_value recreated cleared
  have hol : (OnDestroySessionComplete true s).log = recreated.log ++ [.broadcastDestroy true] := by
    rw [hdef]; simp [emit]
  have hflag : (OnDestroySessionComplete true s).bCreateSessionOnDestroy
      = recreated.bCreateSessionOnDestroy := by
    rw [hdef]; simp [emit]
  cases hv : s.SessionInterfaceValid
  · have hr : recreated = cleared := by
      rw [hrdef]; simp [CreateSession, hcv, hv]
    simp only [hv, Bool.false_eq_true, if_false, List.append_nil] at hcl
    rw [hr] at hol hflag
    have hce : emitted s cleared = [] := emitted_of_log_eq (by simpa using hcl)
    have he : emitted s (OnDestroySessionComplete true s) = [.broadcastDestroy true] :=
      emitted_of_log_eq (by rw [hol, hcl])
    refine ⟨hdef, ?_, ?_, ?_, ?_⟩
    · rw [he, hr, hce]; simp [emitted]
    · rw [he]; simp [destroyBroadcasts]
    · intro h; exact absurd h (by simp)
    · intro _
      exact ⟨by rw [hflag, hcf], by rw [he]; simp [destroyBroadcasts]⟩
  · simp only [hv, if_true] at hcl
    rw [hv] at hcv
    have hrl : recreated.log = cleared.log ++
        createSessionActions s.answers s.LastNumPublicConnections s.LastMatchType := by
      have := CreateSession_log s.LastNumPublicConnections s.LastMatchType cleared hcv
      rw [hca, ← hrdef] at this
      exact this
    have h2 : recreated.log = s.log ++ ([.clearDelegate .destroy] ++
        createSessionActions s.answers s.LastNumPublicConnections s.LastMatchType) := by
      rw [hrl, hcl, List.append_assoc]
    have he : emitted s (OnDestroySessionComplete true s)
        = emitted s cleared ++ emitted cleared recreated ++ [.broadcastDestroy true] := by
      rw [emitted_trans h2 hol, emitted_trans hcl hrl, emitted_of_log_eq hol]
    have he2 : emitted s (OnDestroySessionComplete true s) = [.clearDelegate .destroy] ++
        createSessionActions s.answers s.LastNumPublicConnections s.LastMatchType
          ++ [.broadcastDestroy true] := by
      rw [he, emitted_of_log_eq hcl, emitted_of_log_eq hrl]
    refine ⟨hdef, he, ?_, ?_, ?_⟩
    · rw [he2]
      cases hn : s.answers.namedSession <;> cases hd : s.answers.destroyAccepted <;>
        cases hcA : s.answers.createAccepted <;>
        simp [destroyBroadcasts, createSessionActions, destroySessionActions, hn, hd, hcA]
    · intro _
      rw [emitted_of_log_eq hrl]
      cases hn : s.answers.namedSession <;> cases hd : s.answers.destroyAccepted <;>
        cases hcA : s.answers.createAccepted <;>
        simp [createSubmissions, createSessionActions, destroySessionActions, hn, hd, hcA]
    · intro hn
      refine ⟨?_, ?_⟩
      · rw [hflag, hrdef, CreateSession_flag_of_no_session _ _ _ (by rw [hca]; exact hn), hcf]
      · rw [he2]
        cases hcA : s.answers.createAccepted <;>
          simp [destroyBroadcasts, createSessionActions, hn, hcA]

/-- Witness for C5: a subsystem with a pending recreate whose session has
just been destroyed. -/
theorem onDestroySessionComplete_success_recreates_witness :
    pendingRecreateClient.bCreateSessionOnDestroy = true
    ∧ (OnDestroySessionComplete true pendingRecreateClient).bCreateSessionOnDestroy = false
    ∧ destroyBroadcasts (emitted pendingRecreateClient
        (OnDestroySessionComplete true pendingRecreateClient)) = [true] :=
  ⟨rfl, (onDestroySessionComplete_success_recreates pendingRecreateClient rfl).2.2.2.2 rfl⟩

/-- C6: on a destroy completion with failure the pending-recreate flag, the
cached connection count and the cached match type keep their values, no
create request is submitted, and `DestroySessionComplete(false)` is the one
broadcast, after the destroy delegate was cleared. -/
theorem onDestroySessionComplete_failure_frame (s : State) :
    (OnDestroySessionComplete false s).bCreateSessionOnDestroy = s.bCreateSessionOnDestroy
    ∧ (OnDestroySessionComplete false s).LastNumPublicConnections = s.LastNumPublicConnections
    ∧ (OnDestroySessionComplete false s).LastMatchType = s.LastMatchType
    ∧ emitted s (OnDestroySessionComplete false s) =
        (if s.SessionInterfaceValid then [.clearDelegate .destroy] else [])
          ++ [.broadcastDestroy false]
    ∧ createSubmissions (emitted s (OnDestroySessionComplete false s)) = []
    ∧ broadcasts (emitted s (OnDestroySessionComplete false s)) = [.broadcastDestroy false] := by
  obtain ⟨-, -, cf, cn, cm, -⟩ := clearDelegate_fields .destroy s
  have he : emitted s (OnDestroySessionComplete false s) =
      (if s.SessionInterfaceValid then [.clearDelegate .destroy] else [])
        ++ [.broadcastDestroy false] := by
    apply emitted_of_log_eq
    cases hv : s.SessionInterfaceValid <;>
      simp [OnDestroySessionComplete, hv, emit, clearDelegate_log]
  refine ⟨?_, ?_, ?_, he, ?_, ?_⟩
  · cases hv : s.SessionInterfaceValid <;> simp [OnDestroySessionComplete, hv, emit, cf]
  · cases hv : s.SessionInterfaceValid <;> simp [OnDestroySessionComplete, hv, emit, cn]
  · cases hv : s.SessionInterfaceValid <;> simp [OnDestroySessionComplete, hv, emit, cm]
  · rw [he]; cases s.SessionInterfaceValid <;> simp [createSubmissions]
  · rw [he]; cases s.SessionInterfaceValid <;> simp [broadcasts, Action.isBroadcast]

/-! ## Find completion -/

/-- C7: on a find completion, for either value of the success flag of the
provider, the handler returns and broadcasts exactly once: the empty list
with `false` when the search holds no result, and otherwise the whole result
list of the search, unchanged, with the flag of the provider. -/
theorem onFindSessionsComplete_payload (b : Bool) (s : State)
    (search : FOnlineSessionSearch) (hs : s.LastSessionSearch = some search) :
    ∃ s', OnFindSessionsComplete b s = some s'
      ∧ (search.SearchResults = [] →
          broadcasts (emitted s s') = [.broadcastFind [] false])
      ∧ (search.SearchResults ≠ [] →
          broadcasts (emitted s s') = [.broadcastFind search.SearchResults b])
      ∧ (s.SessionInterfaceValid = true →
          ∃ a, emitted s s' = [.clearDelegate .find, a]) := by
  obtain ⟨-, -, -, -, -, cs⟩ := clearDelegate_fields .find s
  have hcl := clearDelegate_log .find s
  cases hv : s.SessionInterfaceValid <;> cases hr : search.SearchResults with
  | nil =>
    refine ⟨_, by simp [OnFindSessionsComplete, hv, hs, cs, hr]; rfl, ?_⟩
    simp [emitted, emit, hcl, broadcasts, Action.isBroadcast]
  | cons x xs =>
    refine ⟨_, by simp [OnFindSessionsComplete, hv, hs, cs, hr]; rfl, ?_⟩
    simp [emitted, emit, hcl, broadcasts, Action.isBroadcast]

/-- Witness for C7: a search that came back with one result and a success
flag of `true`. -/
theorem onFindSessionsComplete_payload_witness :
    searchedClient.LastSessionSearch = some searchWithOneResult
    ∧ ∃ s', OnFindSessionsComplete true searchedClient = some s'
      ∧ broadcasts (emitted searchedClient s') = [.broadcastFind [plainDescriptor] true] := by
  obtain ⟨s', h, -, h2, -⟩ :=
    onFindSessionsComplete_payload true searchedClient searchWithOneResult rfl
  exact ⟨rfl, s', h, h2 (by simp [searchWithOneResult])⟩

/-! ## Synchronous rejection -/

/-- C10: with an available provider that refuses the submission,
`FindSessions`, `JoinSession`, `StartSession` and `DestroySession` each
register their delegate, submit, clear that delegate again and then
broadcast their failure payload, exactly once and within the call; the
registrations held by the provider are the same as before the call. -/
theorem synchronous_rejection (k : Int) (r : FOnlineSessionSearchResult) (s : State)
    (hv : s.SessionInterfaceValid = true) :
    (s.answers.findAccepted = false →
        emitted s (FindSessions k s) =
          [.addDelegate .find, .providerFindSessions (findQuery s k),
           .clearDelegate .find, .broadcastFind [] false]
        ∧ broadcasts (emitted s (FindSessions k s)) = [.broadcastFind [] false]
        ∧ (FindSessions k s).FindSessionsCompleteDelegateHandle = false
        ∧ ∀ op, (FindSessions k s).delegates.count op = s.delegates.count op)
    ∧ (s.answers.joinAccepted = false →
        emitted s (JoinSession r s) =
          [.addDelegate .join, .providerJoinSession r,
           .clearDelegate .join, .broadcastJoin .UnknownError]
        ∧ broadcasts (emitted s (JoinSession r s)) = [.broadcastJoin .UnknownError]
        ∧ (JoinSession r s).JoinSessionCompleteDelegateHandle = false
        ∧ ∀ op, (JoinSession r s).delegates.count op = s.delegates.count op)
    ∧ (s.answers.startAccepted = false →
        emitted s (StartSession s) =
          [.addDelegate .start, .providerStartSession,
           .clearDelegate .start, .broadcastStart false]
        ∧ broadcasts (emitted s (StartSession s)) = [.broadcastStart false]
        ∧ (StartSession s).StartSessionCompleteDelegateHandle = false
        ∧ ∀ op, (StartSession s).delegates.count op = s.delegates.count op)
    ∧ (s.answers.destroyAccepted = false →
        emitted s (DestroySession s) =
          [.addDelegate .destroy, .providerDestroySession,
           .clearDelegate .destroy, .broadcastDestroy false]
        ∧ broadcasts (emitted s (DestroySession s)) = [.broadcastDestroy false]
        ∧ (DestroySession s).DestroySessionCompleteDelegateHandle = false
        ∧ ∀ op, (DestroySession s).delegates.count op = s.delegates.count op) := by
  refine ⟨fun ha => ?_, fun ha => ?_, fun ha => ?_, fun ha => ?_⟩
  · have hlog : (FindSessions k s).log = s.log ++
        [.addDelegate .find, .providerFindSessions (findQuery s k),
         .clearDelegate .find, .broadcastFind [] false] := by
      simp [FindSessions, findQuery, hv, ha, addDelegate, clearDelegate, emit, setHandle,
        handleOf]
    rw [emitted_of_log_eq hlog]
    refine ⟨rfl, by simp [broadcasts, Action.isBroadcast], ?_, fun op => ?_⟩
    · simp [FindSessions, hv, ha, addDelegate, clearDelegate, emit, setHandle, handleOf]
    · simp [FindSessions, hv, ha, addDelegate, clearDelegate, emit, setHandle, handleOf]
      exact count_append_erase _ _ _
  · have hlog : (JoinSession r s).log = s.log ++
        [.addDelegate .join, .providerJoinSession r,
         .clearDelegate .join, .broadcastJoin .UnknownError] := by
      simp [JoinSession, hv, ha, addDelegate, clearDelegate, emit, setHandle, handleOf]
    rw [emitted_of_log_eq hlog]
    refine ⟨rfl, by simp [broadcasts, Action.isBroadcast], ?_, fun op => ?_⟩
    · simp [JoinSession, hv, ha, addDelegate, clearDelegate, emit, setHandle, handleOf]
    · simp [JoinSession, hv, ha, addDelegate, clearDelegate, emit, setHandle, handleOf]
      exact count_append_erase _ _ _
  · have hlog : (StartSession s).log = s.log ++
        [.addDelegate .start, .providerStartSession,
         .clearDelegate .start, .broadcastStart false] := by
      simp [StartSession, hv, ha, addDelegate, clearDelegate, emit, setHandle, handleOf]
    rw [emitted_of_log_eq hlog]
    refine ⟨rfl, by simp [broadcasts, Action.isBroadcast], ?_, fun op => ?_⟩
    · simp [StartSession, hv, ha, addDelegate, clearDelegate, emit, setHandle, handleOf]
    · simp [StartSession, hv, ha, addDelegate, clearDelegate, emit, setHandle, handleOf]
      exact count_append_erase _ _ _
  · have hlog : (DestroySession s).log = s.log ++
        [.addDelegate .destroy, .providerDestroySession,
         .clearDelegate .destroy, .broadcastDestroy false] := by
      simp [DestroySession, hv, ha, addDelegate, clearDelegate, emit, setHandle, handleOf]
    rw [emitted_of_log_eq hlog]
    refine ⟨rfl, by simp [broadcasts, Action.isBroadcast], ?_, fun op => ?_⟩
    · simp [DestroySession, hv, ha, addDelegate, clearDelegate, emit, setHandle, handleOf]
    · simp [DestroySession, hv, ha, addDelegate, clearDelegate, emit, setHandle, handleOf]
      exact count_append_erase _ _ _

/-- Witness for C10: a fresh subsystem whose provider refuses everything. -/
theorem synchronous_rejection_witness :
    refusedClient.SessionInterfaceValid = true
    ∧ emitted refusedClient (FindSessions 10 refusedClient) =
        [.addDelegate .find, .providerFindSessions (findQuery refusedClient 10),
         .clearDelegate .find, .broadcastFind [] false]
    ∧ broadcasts (emitted refusedClient (JoinSession plainDescriptor refusedClient))
        = [.broadcastJoin .UnknownError]
    ∧ broadcasts (emitted refusedClient (StartSession refusedClient))
        = [.broadcastStart false]
    ∧ broadcasts (emitted refusedClient (DestroySession refusedClient))
        = [.broadcastDestroy false] :=
  ⟨rfl,
    ((synchronous_rejection 10 plainDescriptor refusedClient rfl).1 rfl).1,
    ((synchronous_rejection 10 plainDescriptor refusedClient rfl).2.1 rfl).2.1,
    ((synchronous_rejection 10 plainDescriptor refusedClient rfl).2.2.1 rfl).2.1,
    ((synchronous_rejection 10 plainDescriptor refusedClient rfl).2.2.2 rfl).2.1⟩

/-! ## The match type filter of FindSessions -/

theorem addDelegate_fields (op : Op) (s : State) :
    (addDelegate op s).SessionInterfaceValid = s.SessionInterfaceValid
    ∧ (addDelegate op s).answers = s.answers
    ∧ (addDelegate op s).LastMatchType = s.LastMatchType := by
  cases op <;> simp [addDelegate, emit, setHandle]

theorem DestroySession_fields (s : State) :
    (DestroySession s).SessionInterfaceValid = s.SessionInterfaceValid
    ∧ (DestroySession s).answers = s.answers
    ∧ (DestroySession s).LastMatchType = s.LastMatchType := by
  cases hv : s.SessionInterfaceValid <;> cases ha : s.answers.destroyAccepted <;>
    simp [DestroySession, hv, ha, addDelegate, clearDelegate, emit, setHandle, handleOf]

theorem FindSessions_fields (k : Int) (s : State) :
    (FindSessions k s).SessionInterfaceValid = s.SessionInterfaceValid
    ∧ (FindSessions k s).answers = s.answers
    ∧ (FindSessions k s).LastMatchType = s.LastMatchType := by
  cases hv : s.SessionInterfaceValid <;> cases ha : s.answers.findAccepted <;>
    simp [FindSessions, hv, ha, addDelegate, clearDelegate, emit, setHandle, handleOf]

theorem JoinSession_fields (r : FOnlineSessionSearchResult) (s : State) :
    (JoinSession r s).SessionInterfaceValid = s.SessionInterfaceValid
    ∧ (JoinSession r s).answers = s.answers
    ∧ (JoinSession r s).LastMatchType = s.LastMatchType := by
  cases hv : s.SessionInterfaceValid <;> cases ha : s.answers.joinAccepted <;>
    simp [JoinSession, hv, ha, addDelegate, clearDelegate, emit, setHandle, handleOf]

theorem StartSession_fields (s : State) :
    (StartSession s).SessionInterfaceValid = s.SessionInterfaceValid
    ∧ (StartSession s).answers = s.answers
    ∧ (StartSession s).LastMatchType = s.LastMatchType := by
  cases hv : s.SessionInterfaceValid <;> cases ha : s.answers.startAccepted <;>
    simp [StartSession, hv, ha, addDelegate, clearDelegate, emit, setHandle, handleOf]

theorem CreateSession_fields (n : Int) (m : String) (s : State) :
    (CreateSession n m s).SessionInterfaceValid = s.SessionInterfaceValid
    ∧ (CreateSession n m s).answers = s.answers
    ∧ (CreateSession n m s).LastMatchType =
        (if s.SessionInterfaceValid && s.answers.namedSession then m else s.LastMatchType) := by
  cases hv : s.SessionInterfaceValid <;> cases hn : s.answers.namedSession <;>
    cases hd : s.answers.destroyAccepted <;> cases hc : s.answers.createAccepted <;>
    simp [CreateSession, DestroySession, hv, hn, hd, hc, addDelegate, clearDelegate, emit,
      setHandle, handleOf]

theorem InviteAccept_fields (r : FOnlineSessionSearchResult) (s : State) :
    (InviteAccept r s).SessionInterfaceValid = s.SessionInterfaceValid
    ∧ (InviteAccept r s).answers = s.answers
    ∧ (InviteAccept r s).LastMatchType = s.LastMatchType := by
  unfold InviteAccept
  split
  · exact JoinSession_fields _ s
  · exact ⟨rfl, rfl, rfl⟩

theorem OnDestroySessionComplete_fields (b : Bool) (s : State) :
    (OnDestroySessionComplete b s).SessionInterfaceValid = s.SessionInterfaceValid
    ∧ (OnDestroySessionComplete b s).answers = s.answers
    ∧ (OnDestroySessionComplete b s).LastMatchType = s.LastMatchType := by
  obtain ⟨cv, ca, -, -, cm, -⟩ := clearDelegate_fields .destroy s
  have key : ∀ t : State, t.SessionInterfaceValid = s.SessionInterfaceValid →
      t.answers = s.answers → t.LastMatchType = s.LastMatchType →
      (emit (.broadcastDestroy b)
          (if (b && t.bCreateSessionOnDestroy) = true then
            CreateSession t.LastNumPublicConnections t.LastMatchType
              { t with bCreateSessionOnDestroy := false }
          else t)).SessionInterfaceValid = s.SessionInterfaceValid
      ∧ (emit (.broadcastDestroy b)
          (if (b && t.bCreateSessionOnDestroy) = true then
            CreateSession t.LastNumPublicConnections t.LastMatchType
              { t with bCreateSessionOnDestroy := false }
          else t)).answers = s.answers
      ∧ (emit (.broadcastDestroy b)
          (if (b && t.bCreateSessionOnDestroy) = true then
            CreateSession t.LastNumPublicConnections t.LastMatchType
              { t with bCreateSessionOnDestroy := false }
          else t)).LastMatchType = s.LastMatchType := by
    intro t tv ta tm
    split
    · obtain ⟨h1, h2, h3⟩ := CreateSession_fields t.LastNumPublicConnections t.LastMatchType
        { t with bCreateSessionOnDestroy := false }
      refine ⟨?_, ?_, ?_⟩
      · simpa [emit, h1] using tv
      · simpa [emit, h2] using ta
      · simp only [emit, h3]
        split <;> exact tm
    · exact ⟨by simpa [emit] using tv, by simpa [emit] using ta, by simpa [emit] using tm⟩
  unfold OnDestroySessionComplete
  cases hv : s.SessionInterfaceValid
  · simpa [hv] using key s rfl rfl rfl
  · simpa [hv] using key (clearDelegate .destroy s) cv ca cm

/-- What one event does to the availability of the provider, to its answers
and to the remembered match type. -/
theorem step_fields (e : Event) (s s' : State) (h : step e s = some s') :
    s'.SessionInterfaceValid = s.SessionInterfaceValid
    ∧ s'.answers.namedSession =
        (match e with
          | .providerAnswers a => a.namedSession
          | _ => s.answers.namedSession)
    ∧ s'.LastMatchType =
        (match e with
          | .CreateSession _ m =>
            if s.SessionInterfaceValid && s.answers.namedSession then m else s.LastMatchType
          | _ => s.LastMatchType) := by
  cases e with
  | CreateSession n m =>
    simp only [step, Option.some.injEq] at h
    subst h
    obtain ⟨h1, h2, h3⟩ := CreateSession_fields n m s
    exact ⟨h1, by rw [h2], h3⟩
  | FindSessions k =>
    simp only [step, Option.some.injEq] at h
    subst h
    obtain ⟨h1, h2, h3⟩ := FindSessions_fields k s
    exact ⟨h1, by rw [h2], h3⟩
  | JoinSession r =>
    simp only [step, Option.some.injEq] at h
    subst h
    obtain ⟨h1, h2, h3⟩ := JoinSession_fields r s
    exact ⟨h1, by rw [h2], h3⟩
  | StartSession =>
    simp only [step, Option.some.injEq] at h
    subst h
    obtain ⟨h1, h2, h3⟩ := StartSession_fields s
    exact ⟨h1, by rw [h2], h3⟩
  | DestroySession =>
    simp only [step, Option.some.injEq] at h
    subst h
    obtain ⟨h1, h2, h3⟩ := DestroySession_fields s
    exact ⟨h1, by rw [h2], h3⟩
  | InviteAccept r =>
    simp only [step, Option.some.injEq] at h
    subst h
    obtain ⟨h1, h2, h3⟩ := InviteAccept_fields r s
    exact ⟨h1, by rw [h2], h3⟩
  | InviteFriendByNickname nick =>
    simp only [step, Option.some.injEq] at h
    subst h
    cases hv : s.SessionInterfaceValid
    · simp [InviteFriendByNickname, hv]
    · cases hf : TMapFind nick.toLower s.FriendNameToIdMap <;>
        simp [InviteFriendByNickname, hv, hf, emit]
  | OnCreateSessionComplete b =>
    simp only [step, Option.some.injEq] at h
    subst h
    obtain ⟨cv, ca, -, -, cm, -⟩ := clearDelegate_fields .create s
    cases hv : s.SessionInterfaceValid <;>
      simp [OnCreateSessionComplete, hv, emit, cv, ca, cm]
  | OnFindSessionsComplete results b =>
    obtain ⟨cv, ca, -, -, cm, -⟩ := clearDelegate_fields .find (fillSearchResults results s)
    simp only [step, OnFindSessionsComplete] at h
    split at h
    · exact absurd h (by simp)
    · split at h <;> simp only [Option.some.injEq] at h <;> subst h <;>
        cases hv : s.SessionInterfaceValid <;>
        simp [fillSearchResults, hv, emit] <;>
        simp [fillSearchResults, hv] at cv ca cm <;> simp [cv, ca, cm]
  | OnJoinSessionComplete r =>
    simp only [step, Option.some.injEq] at h
    subst h
    obtain ⟨cv, ca, -, -, cm, -⟩ := clearDelegate_fields .join s
    cases hv : s.SessionInterfaceValid <;>
      simp [OnJoinSessionComplete, hv, emit, cv, ca, cm]
  | OnDestroySessionComplete b =>
    simp only [step, Option.some.injEq] at h
    subst h
    obtain ⟨h1, h2, h3⟩ := OnDestroySessionComplete_fields b s
    exact ⟨h1, by rw [h2], h3⟩
  | OnStartSessionComplete b =>
    simp only [step, Option.some.injEq] at h
    subst h
    obtain ⟨cv, ca, -, -, cm, -⟩ := clearDelegate_fields .start s
    cases hv : s.SessionInterfaceValid <;>
      simp [OnStartSessionComplete, hv, emit, cv, ca, cm]
  | OnInviteAcceptedComplete b r =>
    simp only [step, Option.some.injEq] at h
    subst h
    obtain ⟨h1, h2, h3⟩ := InviteAccept_fields r s
    obtain ⟨cv, ca, -, -, cm, -⟩ := clearDelegate_fields .inviteAccepted (InviteAccept r s)
    unfold OnInviteAcceptedComplete
    split
    · exact ⟨rfl, rfl, rfl⟩
    · simp only
      split
      · exact ⟨by rw [cv, h1], by rw [ca, h2], by rw [cm, h3]⟩
      · exact ⟨h1, by rw [h2], h3⟩
  | OnReadFriendsListComplete b friends =>
    simp only [step, Option.some.injEq] at h
    subst h
    unfold OnReadFriendsListComplete
    split
    · exact ⟨rfl, rfl, rfl⟩
    · split <;> exact ⟨rfl, rfl, rfl⟩
  | providerAnswers a =>
    simp only [step, Option.some.injEq] at h
    subst h
    exact ⟨rfl, rfl, rfl⟩

/-- After any sequence of events `LastMatchType` is what
`rememberedMatchType` computes, and the availability of the provider is
unchanged. -/
theorem run_remembers (es : List Event) :
    ∀ (s s' : State), run es s = some s' →
      s'.SessionInterfaceValid = s.SessionInterfaceValid
      ∧ s'.LastMatchType =
          rememberedMatchType s.SessionInterfaceValid es s.answers.namedSession
            s.LastMatchType := by
  induction es with
  | nil =>
    intro s s' h
    simp only [run, Option.some.injEq] at h
    subst h
    exact ⟨rfl, rfl⟩
  | cons e es ih =>
    intro s s' h
    simp only [run] at h
    split at h
    · exact absurd h (by simp)
    · rename_i t ht
      obtain ⟨hv, hn, hm⟩ := step_fields e s t ht
      obtain ⟨ihv, ihm⟩ := ih t s' h
      refine ⟨by rw [ihv, hv], ?_⟩
      rw [ihm, hv, hn, hm]
      cases e <;> rfl

/-- C8, the code at the failing input: on a fresh subsystem whose provider
holds no session, `CreateSession(4, "TDM")` followed by `FindSessions(10)`
submits a query whose match type filter is the empty string, not the `"TDM"`
of the most recent `CreateSession` call: `LastMatchType` is assigned only in
the branch for an existing session. -/
theorem findSessions_filter_not_last_create :
    lastCreateSessionMatchType [.CreateSession 4 "TDM", .FindSessions 10] = some "TDM"
    ∧ (run [.CreateSession 4 "TDM", .FindSessions 10] freshClient).map
        (fun s => (findSubmissions s.log).map FOnlineSessionSearch.QueryMatchType) = some [""]
    ∧ (run [.CreateSession 4 "TDM", .FindSessions 10] freshClient).map
        (fun s => (findSubmissions s.log).map FOnlineSessionSearch.QueryMatchType)
        ≠ some ["TDM"] := by
  refine ⟨by rfl, by rfl, ?_⟩
  have h : (run [.CreateSession 4 "TDM", .FindSessions 10] freshClient).map
      (fun s => (findSubmissions s.log).map FOnlineSessionSearch.QueryMatchType)
      = some [""] := by rfl
  rw [h]
  decide

/-- The extent of the defect behind C8: after every sequence of events that
runs from a state with an available provider, `FindSessions` submits exactly
one query, and its match type filter is the match type argument of the most
recent `CreateSession` call that was made while a session existed (what was
kept at the start if there was none), whatever the argument of
`FindSessions`; a `CreateSession` call with no session in the way is never
reflected in the filter. -/
theorem findSessions_filter_is_remembered (es : List Event) (s s' : State) (k : Int)
    (hrun : run es s = some s') (hv : s.SessionInterfaceValid = true) :
    (findSubmissions (emitted s' (FindSessions k s'))).map
        FOnlineSessionSearch.QueryMatchType
      = [rememberedMatchType true es s.answers.namedSession s.LastMatchType] := by
  obtain ⟨hv', hm⟩ := run_remembers es s s' hrun
  rw [hv] at hv' hm
  have hlog : (FindSessions k s').log = s'.log ++
      ([.addDelegate .find, .providerFindSessions (findQuery s' k)] ++
        (if s'.answers.findAccepted then [] else [.clearDelegate .find, .broadcastFind [] false]))
      := by
    cases ha : s'.answers.findAccepted <;>
      simp [FindSessions, findQuery, hv', ha, addDelegate, clearDelegate, emit, setHandle,
        handleOf]
  rw [emitted_of_log_eq hlog, ← hm]
  cases s'.answers.findAccepted <;> simp [findSubmissions, findQuery]

/-- An instance of `findSessions_filter_is_remembered`: a host recreates its
session as `(4, "TDM")` and later creates `(2, "FFA")` with no session in the
way; the filter of the next search is still `"TDM"`. -/
theorem findSessions_filter_is_remembered_witness :
    (∃ s', run recreateThenCreate hostWithSession = some s'
      ∧ (findSubmissions (emitted s' (FindSessions 10 s'))).map
          FOnlineSessionSearch.QueryMatchType = ["TDM"])
    ∧ hostWithSession.SessionInterfaceValid = true
    ∧ lastCreateSessionMatchType recreateThenCreate = some "FFA" := by
  refine ⟨?_, rfl, by rfl⟩
  cases h : run recreateThenCreate hostWithSession with
  | none => exact absurd h (by decide)
  | some s' =>
    exact ⟨s', rfl, findSessions_filter_is_remembered recreateThenCreate hostWithSession s' 10 h rfl⟩

/-! ## Descriptor flags on the join paths -/

theorem JoinSession_submits (r : FOnlineSessionSearchResult) (s : State)
    (hv : s.SessionInterfaceValid = true) :
    joinSubmissions (emitted s (JoinSession r s)) = [r] := by
  have hlog : (JoinSession r s).log = s.log ++
      ([.addDelegate .join, .providerJoinSession r] ++
        (if s.answers.joinAccepted then []
          else [.clearDelegate .join, .broadcastJoin .UnknownError])) := by
    cases ha : s.answers.joinAccepted <;>
      simp [JoinSession, hv, ha, addDelegate, clearDelegate, emit, setHandle, handleOf]
  rw [emitted_of_log_eq hlog]
  cases s.answers.joinAccepted <;> simp [joinSubmissions]

theorem emitted_self (s : State) : emitted s s = [] := by
  simp [emitted]

/-- The loop of the menu handler either joins one of the results, with the
flags forced, or leaves the subsystem alone. -/
theorem OnFindSessionsLoop_cases (mt : String) (results : List FOnlineSessionSearchResult)
    (s : State) :
    OnFindSessionsLoop mt results s = none
    ∨ ∃ r ∈ results, (∃ m, r.SessionSettings.MatchType = some m ∧ FStringEq m mt = true)
        ∧ OnFindSessionsLoop mt results s = some (JoinSession (forceLobbyFlags r) s) := by
  induction results with
  | nil => exact Or.inl rfl
  | cons x xs ih =>
    cases hx : x.SessionSettings.MatchType with
    | none =>
      rcases ih with h | ⟨r, hr, hm, h⟩
      · exact Or.inl (by simp [OnFindSessionsLoop, hx, h])
      · exact Or.inr ⟨r, List.mem_cons_of_mem _ hr, hm, by simp [OnFindSessionsLoop, hx, h]⟩
    | some m =>
      cases hmt : FStringEq m mt
      · rcases ih with h | ⟨r, hr, hm, h⟩
        · exact Or.inl (by simp [OnFindSessionsLoop, hx, hmt, h])
        · exact Or.inr ⟨r, List.mem_cons_of_mem _ hr, hm,
            by simp [OnFindSessionsLoop, hx, hmt, h]⟩
      · exact Or.inr ⟨x, List.mem_cons_self _ _, ⟨m, hx, hmt⟩,
          by simp [OnFindSessionsLoop, hx, hmt]⟩

/-- C9, counterexample to the claim as stated: `JoinSession` given a
well-formed descriptor with a match type and both flags off submits that
descriptor with both flags still off. -/
theorem joinSession_does_not_force_flags :
    plainDescriptor.SessionSettings.MatchType = some "TDM"
    ∧ freshClient.SessionInterfaceValid = true
    ∧ joinSubmissions (emitted freshClient (JoinSession plainDescriptor freshClient))
        = [plainDescriptor]
    ∧ plainDescriptor.SessionSettings.bUseLobbiesIfAvailable = false
    ∧ plainDescriptor.SessionSettings.bUsesPresence = false := by
  refine ⟨by rfl, by rfl, by rfl, by rfl, by rfl⟩

/-- C9 as amended: with an available provider and a descriptor whose match
type attribute is present, `JoinSession` submits the descriptor it is given
unchanged; `InviteAccept`, for a well-formed descriptor, submits it with
`bUseLobbiesIfAvailable` and `bUsesPresence` forced to true and everything
else unchanged; and every descriptor the menu find handler hands to
`JoinSession` is submitted with both flags true. -/
theorem callers_force_lobby_flags (d : FOnlineSessionSearchResult) (mt : String) (s : State)
    (hm : d.SessionSettings.MatchType = some mt) (hv : s.SessionInterfaceValid = true) :
    joinSubmissions (emitted s (JoinSession d s)) = [d]
    ∧ (d.bIsValid = true →
        joinSubmissions (emitted s (InviteAccept d s)) = [forceLobbyFlags d])
    ∧ (forceLobbyFlags d).SessionSettings.bUseLobbiesIfAvailable = true
    ∧ (forceLobbyFlags d).SessionSettings.bUsesPresence = true
    ∧ (forceLobbyFlags d).SessionSettings.MatchType = some mt
    ∧ (∀ (w : MenuWidget) (b : Bool), FStringEq mt w.MatchType = true →
        joinSubmissions (emitted s (w.OnFindSessions [d] b s).2) = [forceLobbyFlags d])
    ∧ (∀ (w : MenuWidget) (results : List FOnlineSessionSearchResult) (b : Bool),
        ∀ r ∈ joinSubmissions (emitted s (w.OnFindSessions results b s).2),
          r.SessionSettings.bUseLobbiesIfAvailable = true
          ∧ r.SessionSettings.bUsesPresence = true) := by
  refine ⟨JoinSession_submits d s hv, fun hd => ?_, rfl, rfl, hm, fun w b hw => ?_,
    fun w results b r hr => ?_⟩
  · have : InviteAccept d s = JoinSession (forceLobbyFlags d) s := by
      simp [InviteAccept, hd, hm]
    rw [this]
    exact JoinSession_submits _ s hv
  · have : (w.OnFindSessions [d] b s).2 = JoinSession (forceLobbyFlags d) s := by
      simp [MenuWidget.OnFindSessions, OnFindSessionsLoop, hm, hw]
    rw [this]
    exact JoinSession_submits _ s hv
  · rcases OnFindSessionsLoop_cases w.MatchType results s with h | ⟨x, -, -, h⟩
    · have : (w.OnFindSessions results b s).2 = s := by
        unfold MenuWidget.OnFindSessions
        rw [h]
        simp only
        split <;> rfl
      rw [this, emitted_self] at hr
      simp [joinSubmissions] at hr
    · have : (w.OnFindSessions results b s).2 = JoinSession (forceLobbyFlags x) s := by
        unfold MenuWidget.OnFindSessions
        rw [h]
      rw [this, JoinSession_submits _ s hv] at hr
      simp only [List.mem_singleton] at hr
      subst hr
      exact ⟨rfl, rfl⟩

/-- Witness for C9 as amended: the descriptor with both flags off, accepted
as an invite and found by a menu that looks for its match type. -/
theorem callers_force_lobby_flags_witness :
    plainDescriptor.SessionSettings.MatchType = some "TDM"
    ∧ freshClient.SessionInterfaceValid = true
    ∧ plainDescriptor.bIsValid = true
    ∧ joinSubmissions (emitted freshClient (InviteAccept plainDescriptor freshClient))
        = [forceLobbyFlags plainDescriptor]
    ∧ joinSubmissions (emitted freshClient
        (tdmMenu.OnFindSessions [plainDescriptor] true freshClient).2)
        = [forceLobbyFlags plainDescriptor] :=
  ⟨rfl, rfl, rfl,
    (callers_force_lobby_flags plainDescriptor "TDM" freshClient rfl rfl).2.1 rfl,
    (callers_force_lobby_flags plainDescriptor "TDM" freshClient rfl rfl).2.2.2.2.2.1
      tdmMenu true (by simp [FStringEq, tdmMenu])⟩

/-! ## InviteAccept -/

theorem inviteAccept_eq (d : FOnlineSessionSearchResult) (s : State) :
    InviteAccept d s = if d.bIsValid then JoinSession (inviteNormalized d) s else s := by
  unfold InviteAccept inviteNormalized
  rfl

/-- C11: for a descriptor that is not well-formed `InviteAccept` leaves the
state as it is, so nothing is submitted to the provider and nothing is
broadcast; for a well-formed descriptor it is exactly one call of
`JoinSession`, on the descriptor with the flags normalised, which with an
available provider submits exactly one join request. -/
theorem inviteAccept_validates (d : FOnlineSessionSearchResult) (s : State) :
    (d.bIsValid = false →
        InviteAccept d s = s ∧ emitted s (InviteAccept d s) = [])
    ∧ (d.bIsValid = true →
        InviteAccept d s = JoinSession (inviteNormalized d) s
        ∧ (s.SessionInterfaceValid = true →
            joinSubmissions (emitted s (InviteAccept d s)) = [inviteNormalized d])
        ∧ (s.SessionInterfaceValid = false →
            emitted s (InviteAccept d s) = [.broadcastJoin .UnknownError])) := by
  refine ⟨fun hd => ?_, fun hd => ?_⟩
  · have h : InviteAccept d s = s := by rw [inviteAccept_eq]; simp [hd]
    exact ⟨h, by rw [h]; exact emitted_self s⟩
  · have h : InviteAccept d s = JoinSession (inviteNormalized d) s := by
      rw [inviteAccept_eq]; simp [hd]
    refine ⟨h, fun hv => ?_, fun hv => ?_⟩
    · rw [h]; exact JoinSession_submits _ s hv
    · rw [h]
      apply emitted_of_log_eq
      simp [JoinSession, hv, emit]

/-- Witness for C11: a broken descriptor is dropped, a well-formed one is
joined once with its flags forced. -/
theorem inviteAccept_validates_witness :
    brokenDescriptor.bIsValid = false
    ∧ InviteAccept brokenDescriptor freshClient = freshClient
    ∧ plainDescriptor.bIsValid = true
    ∧ joinSubmissions (emitted freshClient (InviteAccept plainDescriptor freshClient))
        = [inviteNormalized plainDescriptor] :=
  ⟨rfl, ((inviteAccept_validates brokenDescriptor freshClient).1 rfl).1, rfl,
    ((inviteAccept_validates plainDescriptor freshClient).2 rfl).2.1 rfl⟩

/-! ## Friends directory -/

theorem FStringEq_iff (a b : String) : FStringEq a b = true ↔ a.toLower = b.toLower := by
  simp [FStringEq]

theorem FStringEq_self (a : String) : FStringEq a a = true := by
  simp [FStringEq]

theorem FStringEq_trans {a b c : String} (h₁ : FStringEq a b = true)
    (h₂ : FStringEq b c = true) : FStringEq a c = true := by
  rw [FStringEq_iff] at *
  exact h₁.trans h₂

theorem FStringEq_symm {a b : String} (h : FStringEq a b = true) : FStringEq b a = true := by
  rw [FStringEq_iff] at *
  exact h.symm

/-- Looking a key up after `TMap::Add`. -/
theorem TMapFind_TMapAdd (k k' : String) (v : Nat) (m : List (String × Nat)) :
    TMapFind k (TMapAdd k' v m) = if FStringEq k' k then some v else TMapFind k m := by
  induction m with
  | nil => simp [TMapAdd, TMapFind]
  | cons p rest ih =>
    obtain ⟨k'', v''⟩ := p
    cases h1 : FStringEq k'' k' <;> cases h2 : FStringEq k' k <;> cases h3 : FStringEq k'' k
    all_goals simp [TMapAdd, TMapFind, h1, h2, h3, ih]
    · exact absurd (FStringEq_trans h3 (FStringEq_symm h2)) (by simp [h1])
    · exact absurd (FStringEq_trans (FStringEq_symm h1) h3) (by simp [h2])

/-- Looking a key up after the rebuild loop. -/
theorem TMapFind_addFriends (k : String) (fs : List FOnlineFriend) :
    ∀ m : List (String × Nat),
      TMapFind k (addFriends fs m) =
        (match lastFriendFor k fs with
          | some id => some id
          | none => TMapFind k m) := by
  induction fs with
  | nil => intro m; rfl
  | cons f fs ih =>
    intro m
    have hstep : addFriends (f :: fs) m = addFriends fs (TMapAdd f.DisplayName.toLower f.UserId m) :=
      rfl
    rw [hstep, ih, TMapFind_TMapAdd]
    simp only [lastFriendFor]
    cases lastFriendFor k fs with
    | some id => rfl
    | none => cases FStringEq f.DisplayName.toLower k <;> rfl

theorem lastFriendFor_mem (k : String) (fs : List FOnlineFriend) (id : Nat)
    (h : lastFriendFor k fs = some id) :
    ∃ f ∈ fs, FStringEq f.DisplayName.toLower k = true ∧ f.UserId = id := by
  induction fs with
  | nil => simp [lastFriendFor] at h
  | cons f fs ih =>
    simp only [lastFriendFor] at h
    cases hl : lastFriendFor k fs with
    | some id' =>
      rw [hl] at h
      simp only [Option.some.injEq] at h
      subst h
      obtain ⟨g, hg, hk, hid⟩ := ih hl
      exact ⟨g, List.mem_cons_of_mem _ hg, hk, hid⟩
    | none =>
      rw [hl] at h
      cases hf : FStringEq f.DisplayName.toLower k with
      | false => simp [hf] at h
      | true =>
        simp [hf] at h
        exact ⟨f, List.mem_cons_self _ _, hf, h⟩

theorem lastFriendFor_isSome (k : String) (fs : List FOnlineFriend) (f : FOnlineFriend)
    (hf : f ∈ fs) (hk : FStringEq f.DisplayName.toLower k = true) :
    ∃ id, lastFriendFor k fs = some id := by
  induction fs with
  | nil => simp at hf
  | cons g fs ih =>
    simp only [lastFriendFor]
    cases hl : lastFriendFor k fs with
    | some id => exact ⟨id, rfl⟩
    | none =>
      rcases List.mem_cons.mp hf with h | h
      · subst h
        exact ⟨f.UserId, by simp [hk]⟩
      · obtain ⟨id, hid⟩ := ih h
        rw [hl] at hid
        exact absurd hid (by simp)

theorem length_TMapAdd (k : String) (v : Nat) (m : List (String × Nat)) :
    (TMapAdd k v m).length = if (TMapFind k m).isSome then m.length else m.length + 1 := by
  induction m with
  | nil => simp [TMapAdd, TMapFind]
  | cons p rest ih =>
    obtain ⟨k', v'⟩ := p
    cases h : FStringEq k' k
    · cases hfind : (TMapFind k rest).isSome <;>
        simp [TMapAdd, TMapFind, h, ih, hfind]
    · simp [TMapAdd, TMapFind, h]

/-- The rebuild loop adds no entry when every nickname is already a key. -/
theorem length_addFriends_of_present (fs : List FOnlineFriend) :
    ∀ m : List (String × Nat),
      (∀ f ∈ fs, (TMapFind f.DisplayName.toLower m).isSome = true) →
      (addFriends fs m).length = m.length := by
  induction fs with
  | nil => intro m _; rfl
  | cons f fs ih =>
    intro m hm
    have hstep : addFriends (f :: fs) m = addFriends fs (TMapAdd f.DisplayName.toLower f.UserId m) :=
      rfl
    rw [hstep, ih, length_TMapAdd, hm f (List.mem_cons_self _ _)]
    · rfl
    · intro g hg
      rw [TMapFind_TMapAdd]
      split
      · rfl
      · exact hm g (List.mem_cons_of_mem _ hg)

theorem OnReadFriendsListComplete_success (fs : List FOnlineFriend) (s : State)
    (hf : s.FriendsInterfaceValid = true) :
    OnReadFriendsListComplete true (some fs) s =
      { s with FriendNameToIdMap := addFriends fs s.FriendNameToIdMap } := by
  simp [OnReadFriendsListComplete, hf, addFriends]

/-- C12: two nicknames that are equal after lowercasing give
`InviteFriendByNickname` the same outcome in every state, hence for every
directory a read has built: either both calls send nothing, or both send
exactly one invite for the session, to the identity the directory holds for
the lowercased nickname. -/
theorem inviteFriendByNickname_case_insensitive (a b : String) (s : State)
    (hab : a.toLower = b.toLower) :
    InviteFriendByNickname a s = InviteFriendByNickname b s
    ∧ ((emitted s (InviteFriendByNickname a s) = []
          ∧ emitted s (InviteFriendByNickname b s) = []
          ∧ (s.SessionInterfaceValid = true →
              TMapFind a.toLower s.FriendNameToIdMap = none))
        ∨ ∃ id, TMapFind a.toLower s.FriendNameToIdMap = some id
          ∧ emitted s (InviteFriendByNickname a s) = [.providerSendSessionInviteToFriend id]
          ∧ emitted s (InviteFriendByNickname b s) = [.providerSendSessionInviteToFriend id]) := by
  have hEq : InviteFriendByNickname a s = InviteFriendByNickname b s := by
    simp [InviteFriendByNickname, hab]
  refine ⟨hEq, ?_⟩
  rw [← hEq]
  cases hv : s.SessionInterfaceValid
  · have h : InviteFriendByNickname a s = s := by simp [InviteFriendByNickname, hv]
    exact Or.inl ⟨by rw [h]; exact emitted_self s, by rw [h]; exact emitted_self s,
      fun h' => absurd h' (by simp)⟩
  · cases hfind : TMapFind a.toLower s.FriendNameToIdMap with
    | none =>
      have h : InviteFriendByNickname a s = s := by simp [InviteFriendByNickname, hv, hfind]
      exact Or.inl ⟨by rw [h]; exact emitted_self s, by rw [h]; exact emitted_self s,
        fun _ => rfl⟩
    | some id =>
      have h : emitted s (InviteFriendByNickname a s)
          = [.providerSendSessionInviteToFriend id] := by
        apply emitted_of_log_eq
        simp [InviteFriendByNickname, hv, hfind, emit]
      exact Or.inr ⟨id, rfl, h, h⟩

/-- Witness for C12: after a read of the list with the entry `Alice`, the
nicknames `Alice` and `ALICE` give the same outcome, and `alice` sends one
invite to the identity of that entry. -/
theorem inviteFriendByNickname_case_insensitive_witness :
    "Alice".toLower = "ALICE".toLower
    ∧ InviteFriendByNickname "Alice" clientKnowingAlice
        = InviteFriendByNickname "ALICE" clientKnowingAlice
    ∧ emitted clientKnowingAlice (InviteFriendByNickname "Alice" clientKnowingAlice)
        = [.providerSendSessionInviteToFriend 1] := by
  have hab : "Alice".toLower = "ALICE".toLower := by simp [String.toLower, String.map_eq]
  refine ⟨hab, (inviteFriendByNickname_case_insensitive "Alice" "ALICE" clientKnowingAlice
    hab).1, ?_⟩
  apply emitted_of_log_eq
  simp [InviteFriendByNickname, clientKnowingAlice, OnReadFriendsListComplete, aliceOnly,
    freshClient, State.init, TMapAdd, TMapFind, FStringEq, emit]

/-- C13, counterexample to the claim as stated: a directory that holds `bob`
still holds `bob` after a successful read of a list that has only `Alice`. -/
theorem friends_read_keeps_old_entries :
    clientKnowingBob.FriendsInterfaceValid = true
    ∧ (OnReadFriendsListComplete true (some aliceOnly) clientKnowingBob).FriendNameToIdMap
        = [("bob", 2), ("alice", 1)]
    ∧ TMapFind "bob"
        (OnReadFriendsListComplete true (some aliceOnly) clientKnowingBob).FriendNameToIdMap
        = some 2
    ∧ ∀ f ∈ aliceOnly, f.DisplayName.toLower ≠ "bob" := by
  have hmap : (OnReadFriendsListComplete true (some aliceOnly)
      clientKnowingBob).FriendNameToIdMap = [("bob", 2), ("alice", 1)] := by
    simp [OnReadFriendsListComplete, clientKnowingBob, aliceOnly, freshClient, State.init,
      TMapAdd, FStringEq, String.toLower, String.map_eq]
  refine ⟨rfl, hmap, ?_, ?_⟩
  · rw [hmap]
    simp [TMapFind, FStringEq]
  · intro f hf
    simp only [aliceOnly, List.mem_singleton] at hf
    subst hf
    simp [String.toLower, String.map_eq]

/-- C13 as amended: a successful read updates the directory entry by entry
without clearing it.  Afterwards a key that is the lowercased nickname of an
entry of the list is mapped to the identity of the last such entry, every
other key is mapped as before the read, nothing else in the state changes,
and when the directory was empty its keys are exactly the lowercased
nicknames of the list. -/
theorem friends_read_adds_and_overwrites (s : State) (fs : List FOnlineFriend)
    (hf : s.FriendsInterfaceValid = true) :
    OnReadFriendsListComplete true (some fs) s =
        { s with FriendNameToIdMap := addFriends fs s.FriendNameToIdMap }
    ∧ (∀ k, TMapFind k (OnReadFriendsListComplete true (some fs) s).FriendNameToIdMap =
        (match lastFriendFor k fs with
          | some id => some id
          | none => TMapFind k s.FriendNameToIdMap))
    ∧ (∀ f ∈ fs, ∃ g ∈ fs, FStringEq g.DisplayName.toLower f.DisplayName.toLower = true
        ∧ TMapFind f.DisplayName.toLower
            (OnReadFriendsListComplete true (some fs) s).FriendNameToIdMap = some g.UserId)
    ∧ (∀ k, (∀ f ∈ fs, FStringEq f.DisplayName.toLower k = false) →
        TMapFind k (OnReadFriendsListComplete true (some fs) s).FriendNameToIdMap
          = TMapFind k s.FriendNameToIdMap)
    ∧ (s.FriendNameToIdMap = [] → ∀ k id,
        TMapFind k (OnReadFriendsListComplete true (some fs) s).FriendNameToIdMap = some id →
        ∃ f ∈ fs, FStringEq f.DisplayName.toLower k = true ∧ f.UserId = id) := by
  have hs := OnReadFriendsListComplete_success fs s hf
  have hfind : ∀ k, TMapFind k (OnReadFriendsListComplete true (some fs) s).FriendNameToIdMap =
      (match lastFriendFor k fs with
        | some id => some id
        | none => TMapFind k s.FriendNameToIdMap) := by
    intro k
    rw [hs]
    exact TMapFind_addFriends k fs s.FriendNameToIdMap
  refine ⟨hs, hfind, ?_, ?_, ?_⟩
  · intro f hmem
    obtain ⟨id, hid⟩ := lastFriendFor_isSome f.DisplayName.toLower fs f hmem (FStringEq_self _)
    obtain ⟨g, hg, hk, hgid⟩ := lastFriendFor_mem _ fs id hid
    refine ⟨g, hg, hk, ?_⟩
    rw [hfind, hid, hgid]
  · intro k hk
    rw [hfind]
    cases hl : lastFriendFor k fs with
    | none => rfl
    | some id =>
      obtain ⟨g, hg, hgk, -⟩ := lastFriendFor_mem _ fs id hl
      rw [hk g hg] at hgk
      exact absurd hgk (by simp)
  · intro hD k id h
    rw [hfind, hD] at h
    cases hl : lastFriendFor k fs with
    | none =>
      rw [hl] at h
      simp [TMapFind] at h
    | some id' =>
      rw [hl] at h
      simp only [Option.some.injEq] at h
      subst h
      exact lastFriendFor_mem _ fs _ hl

/-- Witness for C13 as amended: the directory that holds `bob` reads the
list with the entry `Alice`. -/
theorem friends_read_adds_and_overwrites_witness :
    clientKnowingBob.FriendsInterfaceValid = true
    ∧ OnReadFriendsListComplete true (some aliceOnly) clientKnowingBob =
        { clientKnowingBob with
          FriendNameToIdMap := addFriends aliceOnly clientKnowingBob.FriendNameToIdMap } :=
  ⟨rfl, (friends_read_adds_and_overwrites clientKnowingBob aliceOnly rfl).1⟩

/-- C14: processing a successful read of the same friend list twice in a row
gives a directory of the same size as processing it once, in which every key
is mapped to the same identity; this holds for every state and every list. -/
theorem friends_read_idempotent (s : State) (fs : List FOnlineFriend) :
    (OnReadFriendsListComplete true (some fs)
        (OnReadFriendsListComplete true (some fs) s)).FriendNameToIdMap.length
      = (OnReadFriendsListComplete true (some fs) s).FriendNameToIdMap.length
    ∧ ∀ k, TMapFind k (OnReadFriendsListComplete true (some fs)
          (OnReadFriendsListComplete true (some fs) s)).FriendNameToIdMap
        = TMapFind k (OnReadFriendsListComplete true (some fs) s).FriendNameToIdMap := by
  cases hf : s.FriendsInterfaceValid
  · have h : OnReadFriendsListComplete true (some fs) s = s := by
      simp [OnReadFriendsListComplete, hf]
    rw [h, h]
    exact ⟨rfl, fun _ => rfl⟩
  · have h1 := OnReadFriendsListComplete_success fs s hf
    have h2 := OnReadFriendsListComplete_success fs
      { s with FriendNameToIdMap := addFriends fs s.FriendNameToIdMap } hf
    rw [h1, h2]
    refine ⟨?_, fun k => ?_⟩
    · apply length_addFriends_of_present
      intro f hmem
      obtain ⟨id, hid⟩ := lastFriendFor_isSome f.DisplayName.toLower fs f hmem (FStringEq_self _)
      simp only
      rw [TMapFind_addFriends, hid]
      rfl
    · simp only
      rw [TMapFind_addFriends, TMapFind_addFriends]
      cases lastFriendFor k fs <;> rfl

/-! ## Completion handlers and their registrations -/

theorem clearDelegate_delegates (op : Op) (s : State) :
    (clearDelegate op s).delegates =
      if handleOf op s then s.delegates.erase op else s.delegates := by
  unfold clearDelegate
  split <;> cases op <;> simp [emit, setHandle]

theorem clearDelegate_handle (op : Op) (s : State) :
    handleOf op (clearDelegate op s) = false := by
  unfold clearDelegate
  split
  · cases op <;> simp [emit, setHandle, handleOf]
  · rename_i h
    cases op <;> simpa [emit, handleOf] using h

theorem clearDelegate_count (op : Op) (s : State) (h : handleOf op s = true) :
    (clearDelegate op s).delegates.count op = s.delegates.count op - 1 := by
  rw [clearDelegate_delegates, h]
  simp [List.count_erase_self]

/-- The actions of `OnDestroySessionComplete` with an available provider. -/
theorem OnDestroySessionComplete_log (b : Bool) (s : State)
    (hv : s.SessionInterfaceValid = true) :
    (OnDestroySessionComplete b s).log = s.log ++
      (.clearDelegate .destroy ::
        ((if b && s.bCreateSessionOnDestroy then
            createSessionActions s.answers s.LastNumPublicConnections s.LastMatchType
          else []) ++ [.broadcastDestroy b])) := by
  obtain ⟨cv, ca, cf, cn, cm, -⟩ := clearDelegate_fields .destroy s
  have hcl := clearDelegate_log .destroy s
  cases hbf : (b && s.bCreateSessionOnDestroy)
  · have : (b && (clearDelegate .destroy s).bCreateSessionOnDestroy) = false := by rw [cf, hbf]
    simp [OnDestroySessionComplete, hv, this, emit, hcl]
  · have h1 : (b && (clearDelegate .destroy s).bCreateSessionOnDestroy) = true := by rw [cf, hbf]
    have hdef : OnDestroySessionComplete b s = emit (.broadcastDestroy b)
        (CreateSession (clearDelegate .destroy s).LastNumPublicConnections
          (clearDelegate .destroy s).LastMatchType
          { clearDelegate .destroy s with bCreateSessionOnDestroy := false }) := by
      simp [OnDestroySessionComplete, hv, h1]
    have h2 := CreateSession_log (clearDelegate .destroy s).LastNumPublicConnections
      (clearDelegate .destroy s).LastMatchType
      { clearDelegate .destroy s with bCreateSessionOnDestroy := false } (by simpa [hv] using cv)
    have h3 : (emit (.broadcastDestroy b)
        (CreateSession (clearDelegate .destroy s).LastNumPublicConnections
          (clearDelegate .destroy s).LastMatchType
          { clearDelegate .destroy s with bCreateSessionOnDestroy := false })).log =
        (CreateSession (clearDelegate .destroy s).LastNumPublicConnections
          (clearDelegate .destroy s).LastMatchType
          { clearDelegate .destroy s with bCreateSessionOnDestroy := false }).log
          ++ [.broadcastDestroy b] := rfl
    rw [hdef, h3, h2]
    show ((clearDelegate .destroy s).log ++ createSessionActions (clearDelegate .destroy s).answers
      (clearDelegate .destroy s).LastNumPublicConnections (clearDelegate .destroy s).LastMatchType)
      ++ [.broadcastDestroy b] = _
    rw [hcl, ca, cn, cm]
    simp

theorem CreateSession_count_destroy (n : Int) (m : String) (s : State)
    (hn : s.answers.namedSession = false) :
    (CreateSession n m s).delegates.count .destroy = s.delegates.count .destroy := by
  cases hv : s.SessionInterfaceValid <;> cases hc : s.answers.createAccepted <;>
    simp [CreateSession, hv, hn, hc, emit, addDelegate, clearDelegate, setHandle, handleOf,
      List.count_append]

theorem OnDestroySessionComplete_count (b : Bool) (s : State)
    (hv : s.SessionInterfaceValid = true)
    (hre : (b && s.bCreateSessionOnDestroy && s.answers.namedSession) = false) :
    (OnDestroySessionComplete b s).delegates.count .destroy
      = (clearDelegate .destroy s).delegates.count .destroy := by
  obtain ⟨-, ca, cf, -, -, -⟩ := clearDelegate_fields .destroy s
  cases hbf : (b && s.bCreateSessionOnDestroy)
  · have : (b && (clearDelegate .destroy s).bCreateSessionOnDestroy) = false := by rw [cf, hbf]
    simp [OnDestroySessionComplete, hv, this, emit]
  · have h1 : (b && (clearDelegate .destroy s).bCreateSessionOnDestroy) = true := by rw [cf, hbf]
    have hn : s.answers.namedSession = false := by simpa [hbf] using hre
    have hdef : OnDestroySessionComplete b s = emit (.broadcastDestroy b)
        (CreateSession (clearDelegate .destroy s).LastNumPublicConnections
          (clearDelegate .destroy s).LastMatchType
          { clearDelegate .destroy s with bCreateSessionOnDestroy := false }) := by
      simp [OnDestroySessionComplete, hv, h1]
    rw [hdef]
    show (CreateSession _ _ _).delegates.count .destroy = _
    rw [CreateSession_count_destroy _ _ _ (by show (clearDelegate .destroy s).answers.namedSession = false; rw [ca]; exact hn)]

/-- C15: with an available provider each of the five completion handlers
first clears the delegate of its operation and only then broadcasts to
observers.  When the handle slot of the operation is valid, the clear takes
one registration of that operation away from the provider, and issuing an
operation and then completing it leaves as many registrations of it as
before the issue; the destroy handler is the one that may issue operations
again itself, through the pending recreate. -/
theorem completion_clears_registration_first (s : State)
    (hv : s.SessionInterfaceValid = true) :
    (∀ b, emitted s (OnCreateSessionComplete b s) = [.clearDelegate .create, .broadcastCreate b]
        ∧ (s.CreateSessionCompleteDelegateHandle = true →
            (OnCreateSessionComplete b s).delegates.count .create
              = s.delegates.count .create - 1))
    ∧ (∀ b q, s.LastSessionSearch = some q →
        ∃ s', OnFindSessionsComplete b s = some s'
          ∧ (∃ rs b', emitted s s' = [.clearDelegate .find, .broadcastFind rs b'])
          ∧ (s.FindSessionsCompleteDelegateHandle = true →
              s'.delegates.count .find = s.delegates.count .find - 1))
    ∧ (∀ r, emitted s (OnJoinSessionComplete r s) = [.clearDelegate .join, .broadcastJoin r]
        ∧ (s.JoinSessionCompleteDelegateHandle = true →
            (OnJoinSessionComplete r s).delegates.count .join = s.delegates.count .join - 1))
    ∧ (∀ b, emitted s (OnStartSessionComplete b s) = [.clearDelegate .start, .broadcastStart b]
        ∧ (s.StartSessionCompleteDelegateHandle = true →
            (OnStartSessionComplete b s).delegates.count .start = s.delegates.count .start - 1))
    ∧ (∀ b, emitted s (OnDestroySessionComplete b s) =
          .clearDelegate .destroy ::
            ((if b && s.bCreateSessionOnDestroy then
                createSessionActions s.answers s.LastNumPublicConnections s.LastMatchType
              else []) ++ [.broadcastDestroy b])
        ∧ (s.DestroySessionCompleteDelegateHandle = true →
            (b && s.bCreateSessionOnDestroy && s.answers.namedSession) = false →
            (OnDestroySessionComplete b s).delegates.count .destroy
              = s.delegates.count .destroy - 1))
    ∧ (∀ n m b, s.answers.namedSession = false →
        (OnCreateSessionComplete b (CreateSession n m s)).delegates.count .create
          = s.delegates.count .create)
    ∧ (∀ k b, ∃ s', OnFindSessionsComplete b (FindSessions k s) = some s'
        ∧ s'.delegates.count .find = s.delegates.count .find)
    ∧ (∀ d r, (OnJoinSessionComplete r (JoinSession d s)).delegates.count .join
        = s.delegates.count .join)
    ∧ (∀ b, (OnStartSessionComplete b (StartSession s)).delegates.count .start
        = s.delegates.count .start)
    ∧ (∀ b, (b && s.bCreateSessionOnDestroy && s.answers.namedSession) = false →
        (OnDestroySessionComplete b (DestroySession s)).delegates.count .destroy
          = s.delegates.count .destroy) := by
  refine ⟨fun b => ⟨?_, fun hh => ?_⟩, fun b q hq => ?_, fun r => ⟨?_, fun hh => ?_⟩,
    fun b => ⟨?_, fun hh => ?_⟩, fun b => ⟨?_, fun hh hre => ?_⟩, fun n m b hn => ?_,
    fun k b => ?_, fun d r => ?_, fun b => ?_, fun b hre => ?_⟩
  · rw [onCreateSessionComplete_emitted, hv]; rfl
  · have := clearDelegate_count .create s hh
    simpa [OnCreateSessionComplete, hv, emit] using this
  · obtain ⟨-, -, -, -, -, cs⟩ := clearDelegate_fields .find s
    have hcl := clearDelegate_log .find s
    have hc : s.FindSessionsCompleteDelegateHandle = true →
        (clearDelegate .find s).delegates.count .find = s.delegates.count .find - 1 :=
      fun hh => clearDelegate_count .find s hh
    cases hr : q.SearchResults with
    | nil =>
      refine ⟨_, by simp [OnFindSessionsComplete, hv, hq, cs, hr]; rfl, ⟨[], false, ?_⟩, ?_⟩
      · simp [emitted, emit, hcl]
      · simpa [emit] using hc
    | cons x xs =>
      refine ⟨_, by simp [OnFindSessionsComplete, hv, hq, cs, hr]; rfl, ⟨x :: xs, b, ?_⟩, ?_⟩
      · simp [emitted, emit, hcl]
      · simpa [emit] using hc
  · apply emitted_of_log_eq
    simp [OnJoinSessionComplete, hv, emit, clearDelegate_log]
  · have := clearDelegate_count .join s hh
    simpa [OnJoinSessionComplete, hv, emit] using this
  · apply emitted_of_log_eq
    simp [OnStartSessionComplete, hv, emit, clearDelegate_log]
  · have := clearDelegate_count .start s hh
    simpa [OnStartSessionComplete, hv, emit] using this
  · exact emitted_of_log_eq (OnDestroySessionComplete_log b s hv)
  · rw [OnDestroySessionComplete_count b s hv hre]
    exact clearDelegate_count .destroy s hh
  · cases ha : s.answers.createAccepted <;>
      simp [OnCreateSessionComplete, CreateSession, hv, hn, ha, addDelegate, clearDelegate, emit,
        setHandle, handleOf]
  · cases ha : s.answers.findAccepted
    · refine ⟨_, by simp [OnFindSessionsComplete, FindSessions, findQuery, hv, ha, addDelegate,
        clearDelegate, emit, setHandle, handleOf]; rfl, ?_⟩
      simp [emit]
    · refine ⟨_, by simp [OnFindSessionsComplete, FindSessions, findQuery, hv, ha, addDelegate,
        clearDelegate, emit, setHandle, handleOf]; rfl, ?_⟩
      simp [emit]
  · cases ha : s.answers.joinAccepted <;>
      simp [OnJoinSessionComplete, JoinSession, hv, ha, addDelegate, clearDelegate, emit,
        setHandle, handleOf]
  · cases ha : s.answers.startAccepted <;>
      simp [OnStartSessionComplete, StartSession, hv, ha, addDelegate, clearDelegate, emit,
        setHandle, handleOf]
  · obtain ⟨dv, da, -⟩ := DestroySession_fields s
    have hflag : (DestroySession s).bCreateSessionOnDestroy = s.bCreateSessionOnDestroy := by
      cases ha : s.answers.destroyAccepted <;>
        simp [DestroySession, hv, ha, addDelegate, clearDelegate, emit, setHandle, handleOf]
    rw [OnDestroySessionComplete_count b (DestroySession s) (by rw [dv, hv])
      (by rw [hflag, da]; exact hre)]
    cases ha : s.answers.destroyAccepted <;>
      simp [DestroySession, hv, ha, addDelegate, clearDelegate, emit, setHandle, handleOf]

/-- Witness for C15: a join that was accepted completes with success. -/
theorem completion_clears_registration_first_witness :
    joiningClient.SessionInterfaceValid = true
    ∧ joiningClient.JoinSessionCompleteDelegateHandle = true
    ∧ joiningClient.delegates.count .join = 1
    ∧ emitted joiningClient (OnJoinSessionComplete .Success joiningClient)
        = [.clearDelegate .join, .broadcastJoin .Success]
    ∧ (OnJoinSessionComplete .Success joiningClient).delegates.count .join = 0 :=
  ⟨rfl, rfl, rfl,
    ((completion_clears_registration_first joiningClient rfl).2.2.1 .Success).1,
    ((completion_clears_registration_first joiningClient rfl).2.2.1 .Success).2 rfl⟩

/-! ## Accepted invites -/

theorem InviteAccept_inviteHandle (d : FOnlineSessionSearchResult) (s : State) :
    (InviteAccept d s).InviteAcceptedCompleteDelegateHandle
        = s.InviteAcceptedCompleteDelegateHandle
    ∧ (InviteAccept d s).delegates.count .inviteAccepted
        = s.delegates.count .inviteAccepted := by
  rw [inviteAccept_eq]
  cases d.bIsValid
  · exact ⟨rfl, rfl⟩
  · cases hv : s.SessionInterfaceValid <;> cases ha : s.answers.joinAccepted <;>
      simp [JoinSession, hv, ha, addDelegate, clearDelegate, emit, setHandle, handleOf,
        List.count_append]

theorem InviteAccept_log (d : FOnlineSessionSearchResult) (s : State) :
    ∃ l, (InviteAccept d s).log = s.log ++ l := by
  rw [inviteAccept_eq]
  cases d.bIsValid
  · exact ⟨[], by simp⟩
  · cases hv : s.SessionInterfaceValid <;> cases ha : s.answers.joinAccepted <;>
      simp [JoinSession, hv, ha, addDelegate, clearDelegate, emit, setHandle, handleOf]

/-- C16: `OnInviteAcceptedComplete` with an unsuccessful flag or a
descriptor that is not well-formed leaves the state, and with it the
invite-accepted registration, as it is.  With success, a well-formed
descriptor and an available provider it runs `InviteAccept` and then clears
the invite-accepted delegate, which takes the registration made in
`Initialize` away from the provider and resets the handle slot: after
`Initialize` and one such call as many invite-accepted registrations are
left as before `Initialize`. -/
theorem onInviteAcceptedComplete_one_shot (b : Bool) (d : FOnlineSessionSearchResult)
    (s : State) (hv : s.SessionInterfaceValid = true) :
    ((b = false ∨ d.bIsValid = false) → OnInviteAcceptedComplete b d s = s)
    ∧ (b = true → d.bIsValid = true →
        OnInviteAcceptedComplete b d s = clearDelegate .inviteAccepted (InviteAccept d s)
        ∧ emitted s (OnInviteAcceptedComplete b d s)
            = emitted s (InviteAccept d s) ++ [.clearDelegate .inviteAccepted]
        ∧ (OnInviteAcceptedComplete b d s).InviteAcceptedCompleteDelegateHandle = false
        ∧ (s.InviteAcceptedCompleteDelegateHandle = true →
            (OnInviteAcceptedComplete b d s).delegates.count .inviteAccepted
              = s.delegates.count .inviteAccepted - 1)
        ∧ (Initialize s).InviteAcceptedCompleteDelegateHandle = true
        ∧ (Initialize s).delegates.count .inviteAccepted
            = s.delegates.count .inviteAccepted + 1
        ∧ (OnInviteAcceptedComplete b d (Initialize s)).delegates.count .inviteAccepted
            = s.delegates.count .inviteAccepted) := by
  refine ⟨fun h => ?_, fun hb hd => ?_⟩
  · rcases h with h | h <;> simp [OnInviteAcceptedComplete, h]
  · obtain ⟨iv, -, -⟩ := InviteAccept_fields d s
    have hdef : ∀ t : State, t.SessionInterfaceValid = true →
        OnInviteAcceptedComplete b d t = clearDelegate .inviteAccepted (InviteAccept d t) := by
      intro t ht
      have : (InviteAccept d t).SessionInterfaceValid = true := by
        rw [(InviteAccept_fields d t).1, ht]
      simp [OnInviteAcceptedComplete, hb, hd, this]
    have hcount : ∀ t : State, t.SessionInterfaceValid = true →
        t.InviteAcceptedCompleteDelegateHandle = true →
        (OnInviteAcceptedComplete b d t).delegates.count .inviteAccepted
          = t.delegates.count .inviteAccepted - 1 := by
      intro t ht hh
      obtain ⟨ih, ic⟩ := InviteAccept_inviteHandle d t
      rw [hdef t ht, clearDelegate_count .inviteAccepted _ (by simpa [handleOf, ih] using hh), ic]
    have hiv : (Initialize s).SessionInterfaceValid = true := by
      cases hf : s.FriendsInterfaceValid <;>
        simp [Initialize, hv, hf, addDelegate, emit, setHandle]
    have hih : (Initialize s).InviteAcceptedCompleteDelegateHandle = true := by
      cases hf : s.FriendsInterfaceValid <;>
        simp [Initialize, hv, hf, addDelegate, emit, setHandle]
    have hic : (Initialize s).delegates.count .inviteAccepted
        = s.delegates.count .inviteAccepted + 1 := by
      cases hf : s.FriendsInterfaceValid <;>
        simp [Initialize, hv, hf, addDelegate, emit, setHandle, List.count_append]
    refine ⟨hdef s hv, ?_, ?_, hcount s hv, hih, hic, ?_⟩
    · obtain ⟨l, hl⟩ := InviteAccept_log d s
      have h2 : (OnInviteAcceptedComplete b d s).log
          = (InviteAccept d s).log ++ [.clearDelegate .inviteAccepted] := by
        rw [hdef s hv]; exact clearDelegate_log _ _
      rw [emitted_trans hl h2, emitted_of_log_eq h2]
    · rw [hdef s hv]
      exact clearDelegate_handle .inviteAccepted _
    · rw [hcount (Initialize s) hiv hih, hic]
      simp

/-- Witness for C16: a fresh subsystem is initialised and then receives one
accepted invite with a well-formed descriptor. -/
theorem onInviteAcceptedComplete_one_shot_witness :
    freshClient.SessionInterfaceValid = true
    ∧ plainDescriptor.bIsValid = true
    ∧ OnInviteAcceptedComplete false plainDescriptor (Initialize freshClient)
        = Initialize freshClient
    ∧ (Initialize freshClient).delegates.count .inviteAccepted = 1
    ∧ (OnInviteAcceptedComplete true plainDescriptor (Initialize freshClient)).delegates.count
        .inviteAccepted = 0 :=
  ⟨rfl, rfl,
    (onInviteAcceptedComplete_one_shot false plainDescriptor (Initialize freshClient) rfl).1
      (Or.inl rfl),
    rfl,
    ((onInviteAcceptedComplete_one_shot true plainDescriptor freshClient rfl).2 rfl
      rfl).2.2.2.2.2.2⟩

end MultiplayerSessions
